import Mathlib

/-!
Verification development for the case-law review pipeline.

The repository runs batches of legal documents through a five-stage
LLM pipeline (`processDocumentsPipeline` in the document-processor
module) backed by a model invoker (`callOpenAI` in `lib/llm-client.ts`).
This file gives a shallow embedding of the pipeline orchestrator, the
JSON-island extractor, the cost aggregation, and the invoker's
retry/fallback policy, and proves the specification claims against it.

JavaScript numbers are modelled as `ℚ` (the arithmetic performed by the
code is addition/subtraction/multiplication/division on small decimal
values, where rational arithmetic agrees with the evaluation order used
by the code).  External effects (document conversion, prompt loading,
LLM responses, persistence) are supplied by explicit environments.
-/

namespace Review

/-! ## JSON values

`Json` models the JavaScript JSON data model as it is used by the code:
`JSON.parse` produces null, booleans, numbers, strings, arrays and
objects.  Numbers are restricted to integers (the pipeline never relies
on fractional literals; the parser models the integer fragment of the
JSON grammar). -/

inductive Json where
  | null
  | bool (b : Bool)
  | num (n : Int)
  | str (s : String)
  | arr (elems : List Json)
  | obj (members : List (String × Json))
deriving Repr, Inhabited

mutual

/-- Structural boolean equality on JSON values. -/
def Json.beq : Json → Json → Bool
  | .null, .null => true
  | .bool a, .bool b => a == b
  | .num a, .num b => a == b
  | .str a, .str b => a == b
  | .arr a, .arr b => Json.beqElems a b
  | .obj a, .obj b => Json.beqMembers a b
  | _, _ => false

/-- Structural boolean equality on JSON element lists. -/
def Json.beqElems : List Json → List Json → Bool
  | [], [] => true
  | x :: xs, y :: ys => Json.beq x y && Json.beqElems xs ys
  | _, _ => false

/-- Structural boolean equality on JSON member lists. -/
def Json.beqMembers : List (String × Json) → List (String × Json) → Bool
  | [], [] => true
  | (k1, v1) :: xs, (k2, v2) :: ys => k1 == k2 && Json.beq v1 v2 && Json.beqMembers xs ys
  | _, _ => false

end

/-- Boolean equality on JSON values agrees with propositional equality. -/
theorem Json.beq_correct : ∀ fuel : Nat,
    (∀ a b : Json, sizeOf a ≤ fuel → (Json.beq a b = true ↔ a = b)) ∧
    (∀ xs ys : List Json, sizeOf xs ≤ fuel → (Json.beqElems xs ys = true ↔ xs = ys)) ∧
    (∀ xs ys : List (String × Json), sizeOf xs ≤ fuel →
      (Json.beqMembers xs ys = true ↔ xs = ys)) := by
  intro fuel
  induction fuel with
  | zero =>
    refine ⟨?_, ?_, ?_⟩
    · intro a b h; exfalso; cases a <;> simp at h
    · intro xs ys h; exfalso; cases xs <;> simp at h
    · intro xs ys h; exfalso; cases xs <;> simp at h
  | succ n ih =>
    obtain ⟨ihV, ihE, ihM⟩ := ih
    refine ⟨?_, ?_, ?_⟩
    · intro a b h
      cases a <;> cases b <;> simp [Json.beq]
      case arr.arr xs ys => exact ihE xs ys (by simp at h; omega)
      case obj.obj xs ys => exact ihM xs ys (by simp at h; omega)
    · intro xs ys h
      match xs, ys with
      | [], [] => simp [Json.beqElems]
      | [], _ :: _ => simp [Json.beqElems]
      | _ :: _, [] => simp [Json.beqElems]
      | x :: xs, y :: ys =>
        simp only [Json.beqElems, Bool.and_eq_true]
        have h1 := ihV x y (by simp at h; omega)
        have h2 := ihE xs ys (by simp at h; omega)
        rw [h1, h2]
        simp
    · intro xs ys h
      match xs, ys with
      | [], [] => simp [Json.beqMembers]
      | [], _ :: _ => simp [Json.beqMembers]
      | _ :: _, [] => simp [Json.beqMembers]
      | (k1, v1) :: xs, (k2, v2) :: ys =>
        simp only [Json.beqMembers, Bool.and_eq_true]
        have h1 := ihV v1 v2 (by simp at h; omega)
        have h2 := ihM xs ys (by simp at h; omega)
        rw [h1, h2]
        simp [beq_iff_eq, and_assoc]

instance : DecidableEq Json := fun a b =>
  decidable_of_iff (Json.beq a b = true) ((Json.beq_correct (sizeOf a)).1 a b le_rfl)

/-! ### Serialization (models `JSON.stringify` with no indentation) -/

/-- Hexadecimal digit character, lowercase, as emitted by `JSON.stringify`
for control-character escapes. -/
def hexDigitChar (n : Nat) : Char :=
  if n < 10 then Char.ofNat (48 + n) else Char.ofNat (87 + n)

/-- Escape a single character per the JSON string grammar as
`JSON.stringify` does: quote, backslash, the short control escapes, and
`\u00XX` for the remaining control characters. -/
def escChar (c : Char) : List Char :=
  if c = '"' then ['\\', '"']
  else if c = '\\' then ['\\', '\\']
  else if c = '\n' then ['\\', 'n']
  else if c = '\t' then ['\\', 't']
  else if c = '\r' then ['\\', 'r']
  else if c = Char.ofNat 8 then ['\\', 'b']
  else if c = Char.ofNat 12 then ['\\', 'f']
  else if c.toNat < 32 then
    ['\\', 'u', '0', '0', hexDigitChar (c.toNat / 16), hexDigitChar (c.toNat % 16)]
  else [c]

/-- Escape a whole character sequence. -/
def escapeChars : List Char → List Char
  | [] => []
  | c :: cs => escChar c ++ escapeChars cs

/-- Decimal digit character. -/
def digitChar (d : Nat) : Char := Char.ofNat (48 + d)

/-- Fueled helper for decimal digit rendering (fuel keeps the recursion
structural so that the definition evaluates inside the kernel). -/
def natDigitsAux : Nat → Nat → List Char
  | 0, _ => []
  | fuel + 1, n =>
    if n < 10 then [digitChar n]
    else natDigitsAux fuel (n / 10) ++ [digitChar (n % 10)]

/-- Decimal digits of a natural number, most significant first. -/
def natDigits (n : Nat) : List Char := natDigitsAux (n + 1) n

/-- Decimal rendering of an integer. -/
def intChars (n : Int) : List Char :=
  if n < 0 then '-' :: natDigits (-n).toNat else natDigits n.toNat

mutual

/-- Compact JSON serialization of a value (models `JSON.stringify(v)`). -/
def Json.serialize : Json → List Char
  | .null => ['n', 'u', 'l', 'l']
  | .bool false => ['f', 'a', 'l', 's', 'e']
  | .bool true => ['t', 'r', 'u', 'e']
  | .num n => intChars n
  | .str s => '"' :: (escapeChars s.data ++ ['"'])
  | .arr [] => ['[', ']']
  | .arr (x :: xs) => '[' :: (Json.serialize x ++ Json.serializeArrTail xs) ++ [']']
  | .obj [] => ['{', '}']
  | .obj ((k, v) :: kvs) =>
      '{' :: (('"' :: (escapeChars k.data ++ '"' :: ':' :: Json.serialize v)) ++
        Json.serializeObjTail kvs) ++ ['}']

/-- Remaining array elements, each preceded by a comma. -/
def Json.serializeArrTail : List Json → List Char
  | [] => []
  | x :: xs => ',' :: Json.serialize x ++ Json.serializeArrTail xs

/-- Remaining object members, each preceded by a comma. -/
def Json.serializeObjTail : List (String × Json) → List Char
  | [] => []
  | (k, v) :: kvs =>
      ',' :: ('"' :: (escapeChars k.data ++ '"' :: ':' :: Json.serialize v)) ++
        Json.serializeObjTail kvs

end

/-- One `"key":value` member. -/
def Json.serializeMember (k : String) (v : Json) : List Char :=
  '"' :: (escapeChars k.data ++ '"' :: ':' :: Json.serialize v)

/-! ### Parsing (models `JSON.parse` on the integer fragment) -/

/-- JSON whitespace. -/
def isJsonWs (c : Char) : Bool := c = ' ' || c = '\t' || c = '\n' || c = '\r'

/-- Skip leading JSON whitespace. -/
def skipWs (cs : List Char) : List Char := cs.dropWhile isJsonWs

/-- Value of one hexadecimal digit character. -/
def hexVal (c : Char) : Option Nat :=
  if '0' ≤ c ∧ c ≤ '9' then some (c.toNat - 48)
  else if 'a' ≤ c ∧ c ≤ 'f' then some (c.toNat - 87)
  else if 'A' ≤ c ∧ c ≤ 'F' then some (c.toNat - 55)
  else none

/-- Decode a short escape code. -/
def escCode (c : Char) : Option Char :=
  if c = '"' then some '"'
  else if c = '\\' then some '\\'
  else if c = '/' then some '/'
  else if c = 'n' then some '\n'
  else if c = 't' then some '\t'
  else if c = 'r' then some '\r'
  else if c = 'b' then some (Char.ofNat 8)
  else if c = 'f' then some (Char.ofNat 12)
  else none

/-- Parse the body of a JSON string (after the opening quote), up to and
including the closing quote.  Returns the decoded characters and the
remaining input. -/
def parseStrChars : List Char → Option (List Char × List Char)
  | [] => none
  | c :: rest =>
    if c = '"' then some ([], rest)
    else if c = '\\' then
      match rest with
      | [] => none
      | e :: rest2 =>
        if e = 'u' then
          match rest2 with
          | h1 :: h2 :: h3 :: h4 :: rest3 =>
            match hexVal h1, hexVal h2, hexVal h3, hexVal h4 with
            | some a, some b, some c3, some d =>
              let n := a * 4096 + b * 256 + c3 * 16 + d
              if n < 55296 then
                (parseStrChars rest3).map (fun p => (Char.ofNat n :: p.1, p.2))
              else none
            | _, _, _, _ => none
          | _ => none
        else
          match escCode e with
          | some ec => (parseStrChars rest2).map (fun p => (ec :: p.1, p.2))
          | none => none
    else (parseStrChars rest).map (fun p => (c :: p.1, p.2))

/-- Decimal digit test. -/
def isDigitChar (c : Char) : Bool := 48 ≤ c.toNat && c.toNat ≤ 57

/-- Parse a run of decimal digits into a natural number. -/
def parseNatNum (cs : List Char) : Option (Nat × List Char) :=
  let ds := cs.takeWhile isDigitChar
  if ds.isEmpty then none
  else some (ds.foldl (fun a c => a * 10 + (c.toNat - 48)) 0, cs.drop ds.length)

mutual

/-- Fueled recursive-descent JSON value parser. -/
def parseValue : Nat → List Char → Option (Json × List Char)
  | 0, _ => none
  | fuel + 1, cs =>
    match skipWs cs with
    | [] => none
    | c :: r =>
      if c = '"' then
        (parseStrChars r).map (fun p => (Json.str (String.mk p.1), p.2))
      else if c = '{' then
        match skipWs r with
        | '}' :: r2 => some (.obj [], r2)
        | _ => (parseMembers fuel r).map (fun p => (Json.obj p.1, p.2))
      else if c = '[' then
        match skipWs r with
        | ']' :: r2 => some (.arr [], r2)
        | _ => (parseElems fuel r).map (fun p => (Json.arr p.1, p.2))
      else if c = '-' then
        (parseNatNum r).map (fun p => (Json.num (-(p.1 : Int)), p.2))
      else if isDigitChar c then
        (parseNatNum (c :: r)).map (fun p => (Json.num (p.1 : Int), p.2))
      else if c = 'n' then
        match r with
        | 'u' :: 'l' :: 'l' :: rr => some (.null, rr)
        | _ => none
      else if c = 't' then
        match r with
        | 'r' :: 'u' :: 'e' :: rr => some (.bool true, rr)
        | _ => none
      else if c = 'f' then
        match r with
        | 'a' :: 'l' :: 's' :: 'e' :: rr => some (.bool false, rr)
        | _ => none
      else none

/-- Parse one or more `"key": value` members followed by `}`. -/
def parseMembers : Nat → List Char → Option (List (String × Json) × List Char)
  | 0, _ => none
  | fuel + 1, cs =>
    match skipWs cs with
    | '"' :: r =>
      match parseStrChars r with
      | none => none
      | some (k, r1) =>
        match skipWs r1 with
        | ':' :: r2 =>
          match parseValue fuel r2 with
          | none => none
          | some (v, r3) =>
            match skipWs r3 with
            | ',' :: r4 => (parseMembers fuel r4).map (fun p => ((String.mk k, v) :: p.1, p.2))
            | '}' :: r4 => some ([(String.mk k, v)], r4)
            | _ => none
        | _ => none
    | _ => none

/-- Parse one or more array elements followed by `]`. -/
def parseElems : Nat → List Char → Option (List Json × List Char)
  | 0, _ => none
  | fuel + 1, cs =>
    match parseValue fuel cs with
    | none => none
    | some (v, r) =>
      match skipWs r with
      | ',' :: r2 => (parseElems fuel r2).map (fun p => (v :: p.1, p.2))
      | ']' :: r2 => some ([v], r2)
      | _ => none

end

/-- Top-level parse (models `JSON.parse`): parse one value and require
only whitespace to remain. -/
def Json.parseChars (cs : List Char) : Option Json :=
  match parseValue (cs.length + 1) cs with
  | some (v, rest) => if skipWs rest = [] then some v else none
  | none => none

/-! ### Serialization round trip -/

theorem char_ne_of_toNat {a b : Char} (h : a.toNat ≠ b.toNat) : a ≠ b :=
  fun he => h (by rw [he])

theorem toNat_ofNat_small {n : Nat} (h : n < 55296) : (Char.ofNat n).toNat = n := by
  simp [Char.ofNat, Char.toNat, Nat.isValidChar, h, Char.ofNatAux, UInt32.toNat]

theorem skipWs_cons {c : Char} {l : List Char} (h : isJsonWs c = false) :
    skipWs (c :: l) = c :: l := by
  simp [skipWs, List.dropWhile, h]

theorem skipWs_colon (l : List Char) : skipWs (':' :: l) = ':' :: l := skipWs_cons (by decide)

theorem skipWs_comma (l : List Char) : skipWs (',' :: l) = ',' :: l := skipWs_cons (by decide)

theorem skipWs_rbrace (l : List Char) : skipWs ('}' :: l) = '}' :: l := skipWs_cons (by decide)

theorem skipWs_rbracket (l : List Char) : skipWs (']' :: l) = ']' :: l := skipWs_cons (by decide)

theorem digit_not_ws {c : Char} (h : isDigitChar c = true) : isJsonWs c = false := by
  by_contra hw
  rw [Bool.not_eq_false] at hw
  simp only [isJsonWs, Bool.or_eq_true, decide_eq_true_eq] at hw
  rcases hw with ((h1 | h1) | h1) | h1 <;> subst h1 <;> simp [isDigitChar] at h

theorem digit_ne {c : Char} (d : Char) (h : isDigitChar c = true)
    (hd : isDigitChar d = false) : c ≠ d := by
  intro he
  subst he
  rw [h] at hd
  cases hd

theorem hexVal_hexDigitChar {m : Nat} (h : m < 16) : hexVal (hexDigitChar m) = some m := by
  revert h
  revert m
  decide

theorem parseStrChars_quote (r : List Char) : parseStrChars ('"' :: r) = some ([], r) := by
  rw [parseStrChars.eq_def]
  simp

theorem parseStrChars_shortEsc {e ec : Char} (r : List Char) (he : e ≠ 'u')
    (hc : escCode e = some ec) :
    parseStrChars ('\\' :: e :: r) = (parseStrChars r).map (fun p => (ec :: p.1, p.2)) := by
  rw [parseStrChars.eq_def]
  simp [he, hc]

theorem parseStrChars_hexEsc {h3 h4 : Char} {a b : Nat} (r : List Char)
    (hv3 : hexVal h3 = some a) (hv4 : hexVal h4 = some b) (hlt : a * 16 + b < 55296) :
    parseStrChars ('\\' :: 'u' :: '0' :: '0' :: h3 :: h4 :: r) =
      (parseStrChars r).map (fun p => (Char.ofNat (a * 16 + b) :: p.1, p.2)) := by
  rw [parseStrChars.eq_def]
  have hv0 : hexVal '0' = some 0 := by decide
  simp only [hv0, hv3, hv4]
  norm_num
  rw [if_neg (by decide : ¬ ('\\' = '"')), if_pos hlt]

theorem parseStrChars_plain {c : Char} (r : List Char) (h1 : c ≠ '"') (h2 : c ≠ '\\') :
    parseStrChars (c :: r) = (parseStrChars r).map (fun p => (c :: p.1, p.2)) := by
  rw [parseStrChars.eq_def]
  simp [h1, h2]

theorem parseStrChars_escape : ∀ (s rest : List Char),
    parseStrChars (escapeChars s ++ ('"' :: rest)) = some (s, rest) := by
  intro s
  induction s with
  | nil => intro rest; simp [escapeChars, parseStrChars_quote]
  | cons c cs ih =>
    intro rest
    show parseStrChars ((escChar c ++ escapeChars cs) ++ ('"' :: rest)) = _
    rw [List.append_assoc]
    by_cases h1 : c = '"'
    · subst h1; simp [escChar, parseStrChars_shortEsc _ (by decide) (by decide : escCode '"' = some '"'), ih]
    · by_cases h2 : c = '\\'
      · subst h2
        simp [escChar, parseStrChars_shortEsc _ (by decide) (by decide : escCode '\\' = some '\\'), ih]
      · by_cases h3 : c = '\n'
        · subst h3
          simp [escChar, parseStrChars_shortEsc _ (by decide) (by decide : escCode 'n' = some '\n'), ih]
        · by_cases h4 : c = '\t'
          · subst h4
            simp [escChar, parseStrChars_shortEsc _ (by decide) (by decide : escCode 't' = some '\t'), ih]
          · by_cases h5 : c = '\r'
            · subst h5
              simp [escChar, parseStrChars_shortEsc _ (by decide) (by decide : escCode 'r' = some '\r'), ih]
            · by_cases h6 : c = Char.ofNat 8
              · subst h6
                simp [escChar, parseStrChars_shortEsc _ (by decide)
                  (by decide : escCode 'b' = some (Char.ofNat 8)), ih]
              · by_cases h7 : c = Char.ofNat 12
                · subst h7
                  simp [escChar, parseStrChars_shortEsc _ (by decide)
                    (by decide : escCode 'f' = some (Char.ofNat 12)), ih]
                · by_cases h8 : c.toNat < 32
                  · rw [escChar, if_neg h1, if_neg h2, if_neg h3, if_neg h4, if_neg h5,
                      if_neg h6, if_neg h7, if_pos h8]
                    have hv3 : hexVal (hexDigitChar (c.toNat / 16)) = some (c.toNat / 16) :=
                      hexVal_hexDigitChar (by omega)
                    have hv4 : hexVal (hexDigitChar (c.toNat % 16)) = some (c.toNat % 16) :=
                      hexVal_hexDigitChar (Nat.mod_lt _ (by omega))
                    have harith : c.toNat / 16 * 16 + c.toNat % 16 = c.toNat := by omega
                    simp only [List.cons_append, List.nil_append]
                    rw [parseStrChars_hexEsc _ hv3 hv4 (by omega), harith, Char.ofNat_toNat, ih]
                    rfl
                  · rw [escChar, if_neg h1, if_neg h2, if_neg h3, if_neg h4, if_neg h5,
                      if_neg h6, if_neg h7, if_neg h8]
                    simp only [List.cons_append, List.nil_append]
                    rw [parseStrChars_plain _ h1 h2, ih]
                    rfl

theorem toNat_digitChar {d : Nat} (h : d < 10) : (digitChar d).toNat = 48 + d := by
  exact toNat_ofNat_small (by omega)

theorem isDigitChar_digitChar {d : Nat} (h : d < 10) : isDigitChar (digitChar d) = true := by
  simp [isDigitChar, toNat_digitChar h]
  omega

theorem natDigitsAux_eq {f1 f2 n : Nat} (h1 : n < f1) (h2 : n < f2) :
    natDigitsAux f1 n = natDigitsAux f2 n := by
  induction f1 generalizing f2 n with
  | zero => omega
  | succ f ih =>
    cases f2 with
    | zero => omega
    | succ g =>
      simp only [natDigitsAux]
      by_cases hn : n < 10
      · simp [hn]
      · have hdiv : n / 10 < n := Nat.div_lt_self (by omega) (by omega)
        simp only [hn, if_false]
        rw [ih (show n / 10 < f by omega) (show n / 10 < g by omega)]

theorem natDigits_eq (n : Nat) :
    natDigits n =
      if n < 10 then [digitChar n] else natDigits (n / 10) ++ [digitChar (n % 10)] := by
  unfold natDigits
  simp only [natDigitsAux]
  by_cases hn : n < 10
  · simp [hn]
  · have hdiv : n / 10 < n := Nat.div_lt_self (by omega) (by omega)
    simp only [hn, if_false]
    rw [natDigitsAux_eq (show n / 10 < n by omega) (show n / 10 < n / 10 + 1 by omega)]
    simp only [natDigitsAux]

theorem natDigits_ne_nil (n : Nat) : natDigits n ≠ [] := by
  rw [natDigits_eq]
  split <;> simp

theorem natDigits_all_digits (n : Nat) : ∀ c ∈ natDigits n, isDigitChar c = true := by
  induction n using Nat.strong_induction_on with
  | _ n ih =>
    rw [natDigits_eq]
    split
    · next h =>
      intro c hc
      simp at hc
      subst hc
      exact isDigitChar_digitChar h
    · next h =>
      intro c hc
      rw [List.mem_append] at hc
      rcases hc with hc | hc
      · exact ih (n / 10) (Nat.div_lt_self (by omega) (by omega)) c hc
      · simp at hc
        subst hc
        exact isDigitChar_digitChar (Nat.mod_lt _ (by omega))

/-- Value computed by the digit fold of `parseNatNum`. -/
def digitsVal (ds : List Char) : Nat := ds.foldl (fun a c => a * 10 + (c.toNat - 48)) 0

theorem digitsVal_natDigits (n : Nat) : digitsVal (natDigits n) = n := by
  induction n using Nat.strong_induction_on with
  | _ n ih =>
    unfold digitsVal
    rw [natDigits_eq]
    split
    · next h => simp [toNat_digitChar h]
    · next h =>
      rw [List.foldl_append]
      have := ih (n / 10) (Nat.div_lt_self (by omega) (by omega))
      unfold digitsVal at this
      rw [this]
      simp [toNat_digitChar (Nat.mod_lt n (by omega) : n % 10 < 10)]
      omega

/-- Continuation lists whose head cannot extend a decimal literal. -/
def headNotDigit (rest : List Char) : Prop :=
  ∀ c, rest.head? = some c → isDigitChar c = false

theorem parseNatNum_natDigits (n : Nat) (rest : List Char) (hrest : headNotDigit rest) :
    parseNatNum (natDigits n ++ rest) = some (n, rest) := by
  unfold parseNatNum
  have hall := natDigits_all_digits n
  rw [List.takeWhile_append_of_pos hall]
  have htw : rest.takeWhile isDigitChar = [] := by
    cases rest with
    | nil => rfl
    | cons c t =>
      have := hrest c rfl
      simp [List.takeWhile, this]
  rw [htw, List.append_nil]
  have hne := natDigits_ne_nil n
  simp only [List.isEmpty_iff]
  rw [if_neg hne]
  have hd : digitsVal (natDigits n) = n := digitsVal_natDigits n
  unfold digitsVal at hd
  rw [hd, List.drop_left]

mutual

/-- Structural parsing budget of a JSON value. -/
def sizeJ : Json → Nat
  | .null => 1
  | .bool _ => 1
  | .num _ => 1
  | .str _ => 1
  | .arr xs => 1 + sizeElems xs
  | .obj kvs => 1 + sizeMembers kvs

/-- Structural parsing budget of an element list. -/
def sizeElems : List Json → Nat
  | [] => 0
  | x :: xs => 1 + sizeJ x + sizeElems xs

/-- Structural parsing budget of a member list. -/
def sizeMembers : List (String × Json) → Nat
  | [] => 0
  | (_, v) :: kvs => 1 + sizeJ v + sizeMembers kvs

end

/-- Heads of serialized JSON values are never whitespace, closing
brackets, commas, or digits that could merge with surrounding text in a
way the parser mishandles. -/
theorem serialize_head (v : Json) :
    ∃ c t, Json.serialize v = c :: t ∧ isJsonWs c = false ∧ c ≠ ']' ∧ c ≠ '}' := by
  cases v with
  | null =>
    refine ⟨'n', _, rfl, ?_, ?_, ?_⟩ <;> decide
  | bool b =>
    rcases b with _ | _
    · refine ⟨'f', _, rfl, ?_, ?_, ?_⟩ <;> decide
    · refine ⟨'t', _, rfl, ?_, ?_, ?_⟩ <;> decide
  | num n =>
    rw [Json.serialize]
    unfold intChars
    split
    · exact ⟨'-', _, rfl, by decide, by decide, by decide⟩
    · match hd : natDigits n.toNat with
      | [] => exact absurd hd (natDigits_ne_nil _)
      | c :: t =>
        have hdig : isDigitChar c = true := natDigits_all_digits _ c (by rw [hd]; simp)
        exact ⟨c, t, rfl, digit_not_ws hdig, digit_ne _ hdig (by decide),
          digit_ne _ hdig (by decide)⟩
  | str s => exact ⟨'"', _, rfl, by decide, by decide, by decide⟩
  | arr xs => cases xs with
    | nil => exact ⟨'[', _, rfl, by decide, by decide, by decide⟩
    | cons x xs => exact ⟨'[', _, rfl, by decide, by decide, by decide⟩
  | obj kvs => cases kvs with
    | nil => exact ⟨'{', _, rfl, by decide, by decide, by decide⟩
    | cons kv kvs =>
      obtain ⟨k, v⟩ := kv
      exact ⟨'{', _, rfl, by decide, by decide, by decide⟩

theorem sizeJ_pos (v : Json) : 1 ≤ sizeJ v := by
  cases v <;> simp [sizeJ]

/-- The body of `parseValue` after the head character of the
whitespace-stripped input has been exposed. -/
def parseValueBody (fuel : Nat) (c : Char) (r : List Char) : Option (Json × List Char) :=
  if c = '"' then
    (parseStrChars r).map (fun p => (Json.str (String.mk p.1), p.2))
  else if c = '{' then
    match skipWs r with
    | '}' :: r2 => some (.obj [], r2)
    | _ => (parseMembers fuel r).map (fun p => (Json.obj p.1, p.2))
  else if c = '[' then
    match skipWs r with
    | ']' :: r2 => some (.arr [], r2)
    | _ => (parseElems fuel r).map (fun p => (Json.arr p.1, p.2))
  else if c = '-' then
    (parseNatNum r).map (fun p => (Json.num (-(p.1 : Int)), p.2))
  else if isDigitChar c then
    (parseNatNum (c :: r)).map (fun p => (Json.num (p.1 : Int), p.2))
  else if c = 'n' then
    match r with
    | 'u' :: 'l' :: 'l' :: rr => some (.null, rr)
    | _ => none
  else if c = 't' then
    match r with
    | 'r' :: 'u' :: 'e' :: rr => some (.bool true, rr)
    | _ => none
  else if c = 'f' then
    match r with
    | 'a' :: 'l' :: 's' :: 'e' :: rr => some (.bool false, rr)
    | _ => none
  else none

theorem parseValue_succ {fuel : Nat} {cs : List Char} {c : Char} {r : List Char}
    (h : skipWs cs = c :: r) :
    parseValue (fuel + 1) cs = parseValueBody fuel c r := by
  rw [parseValue]
  revert h
  generalize skipWs cs = z
  intro h
  subst h
  rfl

/-- The body of `parseMembers` after the opening quote of the first key
has been exposed. -/
def parseMembersBody (fuel : Nat) (r : List Char) : Option (List (String × Json) × List Char) :=
  match parseStrChars r with
  | none => none
  | some (k, r1) =>
    match skipWs r1 with
    | ':' :: r2 =>
      match parseValue fuel r2 with
      | none => none
      | some (v, r3) =>
        match skipWs r3 with
        | ',' :: r4 => (parseMembers fuel r4).map (fun p => ((String.mk k, v) :: p.1, p.2))
        | '}' :: r4 => some ([(String.mk k, v)], r4)
        | _ => none
    | _ => none

theorem parseMembers_succ {fuel : Nat} {cs r : List Char}
    (h : skipWs cs = '"' :: r) :
    parseMembers (fuel + 1) cs = parseMembersBody fuel r := by
  rw [parseMembers]
  revert h
  generalize skipWs cs = z
  intro h
  subst h
  rfl

theorem headNotDigit_objTail (kvs : List (String × Json)) (rest : List Char) :
    headNotDigit (Json.serializeObjTail kvs ++ ('}' :: rest)) := by
  cases kvs with
  | nil => intro c hc; simp [Json.serializeObjTail] at hc; subst hc; decide
  | cons kv kvs =>
    obtain ⟨k, v⟩ := kv
    intro c hc
    simp [Json.serializeObjTail] at hc
    subst hc
    decide

theorem headNotDigit_arrTail (xs : List Json) (rest : List Char) :
    headNotDigit (Json.serializeArrTail xs ++ (']' :: rest)) := by
  cases xs with
  | nil => intro c hc; simp [Json.serializeArrTail] at hc; subst hc; decide
  | cons x xs =>
    intro c hc
    simp [Json.serializeArrTail] at hc
    subst hc
    decide

theorem parse_serialize_round : ∀ fuel : Nat,
    (∀ v rest, sizeJ v ≤ fuel → headNotDigit rest →
      parseValue fuel (Json.serialize v ++ rest) = some (v, rest)) ∧
    (∀ k v kvs rest, sizeMembers ((k, v) :: kvs) ≤ fuel →
      parseMembers fuel
        (('"' :: (escapeChars k.data ++ '"' :: ':' :: Json.serialize v)) ++
          (Json.serializeObjTail kvs ++ ('}' :: rest))) =
        some ((k, v) :: kvs, rest)) ∧
    (∀ x xs rest, sizeElems (x :: xs) ≤ fuel →
      parseElems fuel
        (Json.serialize x ++ (Json.serializeArrTail xs ++ (']' :: rest))) =
        some (x :: xs, rest)) := by
  intro fuel
  induction fuel with
  | zero =>
    refine ⟨?_, ?_, ?_⟩
    · intro v rest hs _
      exact absurd hs (by have := sizeJ_pos v; omega)
    · intro k v kvs rest hs
      exact absurd hs (by simp [sizeMembers])
    · intro x xs rest hs
      exact absurd hs (by simp [sizeElems])
  | succ n ih =>
    obtain ⟨ihV, ihM, ihE⟩ := ih
    refine ⟨?_, ?_, ?_⟩
    · -- values
      intro v rest hs hrest
      cases v with
      | null =>
        simp only [Json.serialize, List.cons_append, List.nil_append]
        rw [parseValue_succ (skipWs_cons (by decide))]
        unfold parseValueBody
        simp [show isDigitChar 'n' = false by decide]
      | bool b =>
        cases b with
        | true =>
          simp only [Json.serialize, List.cons_append, List.nil_append]
          rw [parseValue_succ (skipWs_cons (by decide))]
          unfold parseValueBody
          simp [show isDigitChar 't' = false by decide]
        | false =>
          simp only [Json.serialize, List.cons_append, List.nil_append]
          rw [parseValue_succ (skipWs_cons (by decide))]
          unfold parseValueBody
          simp [show isDigitChar 'f' = false by decide]
      | num m =>
        simp only [Json.serialize]
        unfold intChars
        by_cases hm : m < 0
        · rw [if_pos hm]
          simp only [List.cons_append]
          rw [parseValue_succ (skipWs_cons (by decide))]
          unfold parseValueBody
          have hnum := parseNatNum_natDigits (-m).toNat rest hrest
          simp [hnum]
          omega
        · rw [if_neg hm]
          match hd : natDigits m.toNat with
          | [] => exact absurd hd (natDigits_ne_nil _)
          | c :: t =>
            have hdig : isDigitChar c = true := natDigits_all_digits _ c (by rw [hd]; simp)
            obtain ⟨hq, hb, hk, hmn⟩ :
                c ≠ '"' ∧ c ≠ '{' ∧ c ≠ '[' ∧ c ≠ '-' :=
              ⟨digit_ne _ hdig (by decide), digit_ne _ hdig (by decide),
                digit_ne _ hdig (by decide), digit_ne _ hdig (by decide)⟩
            simp only [List.cons_append]
            rw [parseValue_succ (skipWs_cons (digit_not_ws hdig))]
            unfold parseValueBody
            rw [if_neg hq, if_neg hb, if_neg hk, if_neg hmn, if_pos hdig]
            have : (c :: t) ++ rest = natDigits m.toNat ++ rest := by rw [hd]
            rw [show c :: (t ++ rest) = natDigits m.toNat ++ rest by
              rw [hd]; simp]
            rw [parseNatNum_natDigits m.toNat rest hrest]
            simp
            omega
      | str s =>
        simp only [Json.serialize, List.cons_append, List.append_assoc, List.nil_append]
        rw [parseValue_succ (skipWs_cons (by decide))]
        unfold parseValueBody
        rw [if_pos rfl]
        rw [parseStrChars_escape]
        simp
      | arr xs =>
        cases xs with
        | nil =>
          simp only [Json.serialize, List.cons_append, List.nil_append]
          rw [parseValue_succ (skipWs_cons (by decide))]
          unfold parseValueBody
          rw [skipWs_cons (by decide)]
          simp
        | cons x xs =>
          simp only [Json.serialize, List.cons_append, List.append_assoc, List.nil_append]
          rw [parseValue_succ (skipWs_cons (by decide))]
          unfold parseValueBody
          rw [if_neg (by decide), if_neg (by decide), if_pos rfl]
          obtain ⟨ch, t, heq, hws, hne1, hne2⟩ := serialize_head x
          rw [heq]
          simp only [List.cons_append]
          rw [skipWs_cons hws]
          have hsz : sizeElems (x :: xs) ≤ n := by
            simp [sizeJ] at hs
            omega
          have := ihE x xs rest hsz
          rw [heq] at this
          simp only [List.cons_append] at this
          split
          · next heq2 => exact absurd (List.cons_eq_cons.mp heq2.symm).1.symm hne1
          · rw [this]
            simp
      | obj kvs =>
        cases kvs with
        | nil =>
          simp only [Json.serialize, List.cons_append, List.nil_append]
          rw [parseValue_succ (skipWs_cons (by decide))]
          unfold parseValueBody
          rw [skipWs_cons (by decide)]
          simp
        | cons kv kvs =>
          obtain ⟨k, v⟩ := kv
          simp only [Json.serialize, List.cons_append, List.append_assoc, List.nil_append]
          rw [parseValue_succ (skipWs_cons (by decide))]
          unfold parseValueBody
          rw [if_neg (by decide), if_pos rfl]
          rw [skipWs_cons (by decide)]
          have hsz : sizeMembers ((k, v) :: kvs) ≤ n := by
            simp [sizeJ] at hs
            omega
          have := ihM k v kvs rest hsz
          simp only [List.cons_append, List.append_assoc] at this
          split
          · next heq2 => exact absurd (List.cons_eq_cons.mp heq2.symm).1 (by decide)
          · rw [this]
            simp
    · -- members
      intro k v kvs rest hs
      simp only [List.cons_append, List.append_assoc]
      rw [parseMembers_succ (skipWs_cons (by decide))]
      unfold parseMembersBody
      rw [parseStrChars_escape]
      have hszv : sizeJ v ≤ n := by
        simp [sizeMembers] at hs
        omega
      simp only [skipWs_colon, ihV v _ hszv (headNotDigit_objTail kvs rest)]
      cases kvs with
      | nil =>
        simp only [Json.serializeObjTail, List.nil_append]
        rw [skipWs_cons (by decide)]
        simp
      | cons kv2 kvs2 =>
        obtain ⟨k2, v2⟩ := kv2
        simp only [Json.serializeObjTail, List.cons_append, List.append_assoc]
        rw [skipWs_cons (by decide)]
        have hsz2 : sizeMembers ((k2, v2) :: kvs2) ≤ n := by
          simp [sizeMembers] at hs ⊢
          omega
        have := ihM k2 v2 kvs2 rest hsz2
        simp only [List.cons_append, List.append_assoc] at this
        simp only [this]
        simp
    · -- elements
      intro x xs rest hs
      rw [parseElems]
      have hszx : sizeJ x ≤ n := by
        simp [sizeElems] at hs
        omega
      rw [ihV x _ hszx (headNotDigit_arrTail xs rest)]
      cases xs with
      | nil =>
        simp only [Json.serializeArrTail, List.nil_append]
        rw [skipWs_cons (by decide)]
        simp
      | cons x2 xs2 =>
        simp only [Json.serializeArrTail, List.cons_append, List.append_assoc]
        rw [skipWs_cons (by decide)]
        have hsz2 : sizeElems (x2 :: xs2) ≤ n := by
          simp [sizeElems] at hs ⊢
          omega
        have := ihE x2 xs2 rest hsz2
        simp only [List.cons_append, List.append_assoc] at this
        simp only [this]
        simp

theorem sizeJ_le_serialize_length : ∀ fuel : Nat,
    (∀ v : Json, sizeOf v ≤ fuel → sizeJ v ≤ (Json.serialize v).length) ∧
    (∀ xs : List Json, sizeOf xs ≤ fuel → sizeElems xs ≤ (Json.serializeArrTail xs).length) ∧
    (∀ kvs : List (String × Json), sizeOf kvs ≤ fuel →
      sizeMembers kvs ≤ (Json.serializeObjTail kvs).length) := by
  intro fuel
  induction fuel with
  | zero =>
    refine ⟨?_, ?_, ?_⟩
    · intro v h; exfalso; cases v <;> simp at h
    · intro xs h; exfalso; cases xs <;> simp at h
    · intro xs h; exfalso; cases xs <;> simp at h
  | succ n ih =>
    obtain ⟨ihV, ihE, ihM⟩ := ih
    refine ⟨?_, ?_, ?_⟩
    · intro v h
      cases v with
      | null => simp [sizeJ, Json.serialize]
      | bool b => cases b <;> simp [sizeJ, Json.serialize]
      | num m =>
        have h1 := natDigits_ne_nil m.toNat
        simp only [sizeJ, Json.serialize]
        unfold intChars
        split
        · simp
        · cases hd : natDigits m.toNat with
          | nil => exact absurd hd h1
          | cons c t => simp [hd]
      | str s => simp [sizeJ, Json.serialize]
      | arr xs =>
        cases xs with
        | nil => simp [sizeJ, sizeElems, Json.serialize]
        | cons x xs =>
          have h1 := ihV x (by simp at h; omega)
          have h2 := ihE xs (by simp at h; omega)
          simp [sizeJ, sizeElems, Json.serialize] at *
          omega
      | obj kvs =>
        cases kvs with
        | nil => simp [sizeJ, sizeMembers, Json.serialize]
        | cons kv kvs =>
          obtain ⟨k, v⟩ := kv
          have h1 := ihV v (by simp at h; omega)
          have h2 := ihM kvs (by simp at h; omega)
          simp [sizeJ, sizeMembers, Json.serialize] at *
          omega
    · intro xs h
      cases xs with
      | nil => simp [sizeElems, Json.serializeArrTail]
      | cons x xs =>
        have h1 := ihV x (by simp at h; omega)
        have h2 := ihE xs (by simp at h; omega)
        simp [sizeElems, Json.serializeArrTail] at *
        omega
    · intro kvs h
      cases kvs with
      | nil => simp [sizeMembers, Json.serializeObjTail]
      | cons kv kvs =>
        obtain ⟨k, v⟩ := kv
        have h1 := ihV v (by simp at h; omega)
        have h2 := ihM kvs (by simp at h; omega)
        simp [sizeMembers, Json.serializeObjTail] at *
        omega

theorem headNotDigit_nil : headNotDigit [] := by
  intro c hc
  cases hc

/-- Parsing inverts serialization: the central JSON round-trip fact. -/
theorem Json.parseChars_serialize (v : Json) :
    Json.parseChars (Json.serialize v) = some v := by
  unfold Json.parseChars
  have hb := (sizeJ_le_serialize_length (sizeOf v)).1 v le_rfl
  have h := (parse_serialize_round ((Json.serialize v).length + 1)).1 v []
    (by omega) headNotDigit_nil
  rw [List.append_nil] at h
  rw [h]
  simp [skipWs]

/-! ## JSON-island extraction

Models the extraction snippet shared by `processDocumentStep0`,
`processStep1` and `processStep3` in the document processor: fenced
` ```json ` block first, then any fenced block, then the greedy
first-`{`-to-last-`}` span, then `JSON.parse`.  JavaScript strings are
modelled as `List Char`; `String.prototype.trim` is modelled as
stripping the whitespace class `isJsonWs` from both ends. -/

/-- Boolean sequence-prefix test. -/
def isPrefixSeq : List Char → List Char → Bool
  | [], _ => true
  | _ :: _, [] => false
  | p :: ps, c :: cs => p = c && isPrefixSeq ps cs

/-- Index of the first occurrence of `pat` in a character list (the
position found by `String.prototype.includes` / a non-global regex). -/
def findSeq (pat : List Char) : List Char → Option Nat
  | [] => if isPrefixSeq pat [] then some 0 else none
  | c :: cs => if isPrefixSeq pat (c :: cs) then some 0 else (findSeq pat cs).map (· + 1)

/-- Substring containment (models `String.prototype.includes`). -/
def containsSeq (s pat : List Char) : Bool := (findSeq pat s).isSome

/-- Strip leading and trailing whitespace (models `trim()`). -/
def trimChars (l : List Char) : List Char :=
  ((l.dropWhile isJsonWs).reverse.dropWhile isJsonWs).reverse

/-- The characters of ` ```json `. -/
def fenceJson : List Char := ['`', '`', '`', 'j', 's', 'o', 'n']

/-- The characters of ` ``` `. -/
def fenceMark : List Char := ['`', '`', '`']

/-- Interior of the first fenced block opened by `tag`, trimmed — models
the capture group of `/```json\s*([\s\S]*?)\s*```/` followed by
`.trim()` (the lazy group plus the surrounding `\s*` and the final
`.trim()` together amount to trimming the text between the fences). -/
def fencedInterior (tag : List Char) (s : List Char) : Option (List Char) :=
  match findSeq tag s with
  | none => none
  | some i =>
    let after := s.drop (i + tag.length)
    match findSeq fenceMark after with
    | none => none
    | some j => some (trimChars (after.take j))

/-- Fallback used when the fence regex finds no closing fence: strip a
leading `tag` plus whitespace and a trailing whitespace-plus-` ``` `
(models the two anchored `.replace` calls). -/
def stripEdges (tag : List Char) (s : List Char) : List Char :=
  let s1 := if isPrefixSeq tag s then (s.drop tag.length).dropWhile isJsonWs else s
  if isPrefixSeq fenceMark s1.reverse then
    ((s1.reverse.drop 3).dropWhile isJsonWs).reverse
  else s1

/-- Index of the first occurrence of a character. -/
def firstIdxOf (c : Char) : List Char → Option Nat
  | [] => none
  | x :: xs => if x = c then some 0 else (firstIdxOf c xs).map (· + 1)

/-- Greedy first-`{`-to-last-`}` span (models `/\{[\s\S]*\}/`): the match
exists when some `{` precedes the last `}`, and greedily runs from the
first such `{` to the last `}` of the text. -/
def braceSpan (s : List Char) : Option (List Char) :=
  match firstIdxOf '{' s, firstIdxOf '}' s.reverse with
  | some i, some rj =>
    let j := s.length - 1 - rj
    if i < j then some ((s.drop i).take (j - i + 1)) else none
  | _, _ => none

/-- The fenced-block phase of candidate extraction: prefer a ` ```json `
fenced block, else any fenced block, else pass the text through. -/
def fenceStep (s : List Char) : List Char :=
  if containsSeq s fenceJson then
    match fencedInterior fenceJson s with
    | some interior => interior
    | none => stripEdges fenceJson s
  else if containsSeq s fenceMark then
    match fencedInterior fenceMark s with
    | some interior => interior
    | none => stripEdges fenceMark s
  else s

/-- The brace phase of candidate extraction: replace the text by its
greedy first-`{`-to-last-`}` span when one exists. -/
def braceStep (s2 : List Char) : List Char :=
  match braceSpan s2 with
  | some span => span
  | none => s2

/-- Candidate extraction exactly as in the stage code: trim, prefer a
` ```json ` fenced block, else any fenced block, then the greedy brace
span; when a step finds nothing the text passes through unchanged. -/
def extractJsonCandidate (cs : List Char) : List Char :=
  braceStep (fenceStep (trimChars cs))

/-- Full extraction procedure of the stage code: candidate extraction
followed by `JSON.parse`. -/
def extractJson (cs : List Char) : Option Json :=
  Json.parseChars (extractJsonCandidate cs)

/-! ### Extraction round-trip lemmas -/

theorem dropWhile_append_head {p : Char → Bool} {l r : List Char}
    (hr : ∀ c, r.head? = some c → p c = false) :
    (l ++ r).dropWhile p = l.dropWhile p ++ r := by
  induction l with
  | nil =>
    cases r with
    | nil => rfl
    | cons c t => simp [List.dropWhile, hr c rfl]
  | cons x l ih =>
    simp only [List.cons_append, List.dropWhile]
    cases hx : p x <;> simp [hx, ih]

theorem isPrefixSeq_append_self (pat rest : List Char) :
    isPrefixSeq pat (pat ++ rest) = true := by
  induction pat with
  | nil => simp [isPrefixSeq]
  | cons p ps ih => simp [isPrefixSeq, ih]

theorem findSeq_no_overlap {t : List Char} {pat : List Char} (hpat : pat = '`' :: t)
    {xs rest : List Char} (hxs : ∀ c ∈ xs, c ≠ '`')
    (hrest : isPrefixSeq pat rest = true) :
    findSeq pat (xs ++ rest) = some xs.length := by
  induction xs with
  | nil =>
    cases rest with
    | nil => simp [findSeq, hrest]
    | cons c cs => simp [findSeq, hrest]
  | cons x xs ih =>
    have hx : x ≠ '`' := hxs x (by simp)
    have hpre : isPrefixSeq pat (x :: (xs ++ rest)) = false := by
      rw [hpat]
      by_cases he : ('`' : Char) = x
      · exact absurd he.symm hx
      · simp [isPrefixSeq, he]
    simp only [List.cons_append, findSeq, hpre, Bool.false_eq_true, if_false, List.append_eq]
    rw [ih (fun c hc => hxs c (by simp [hc]))]
    simp

theorem trimChars_decomp (p1 mid p2 : List Char) {c d : Char}
    (hc : isJsonWs c = false) (hd : isJsonWs d = false) :
    trimChars (p1 ++ ((c :: (mid ++ [d])) ++ p2)) =
      p1.dropWhile isJsonWs ++ ((c :: (mid ++ [d])) ++
        (p2.reverse.dropWhile isJsonWs).reverse) := by
  unfold trimChars
  rw [dropWhile_append_head (r := (c :: (mid ++ [d])) ++ p2)
    (fun e he => by simp at he; subst he; exact hc)]
  rw [List.reverse_append]
  rw [show ((c :: (mid ++ [d])) ++ p2).reverse = p2.reverse ++ ((d :: mid.reverse) ++ [c]) by
    simp]
  rw [List.append_assoc]
  rw [dropWhile_append_head (r := ((d :: mid.reverse) ++ [c]) ++ (p1.dropWhile isJsonWs).reverse)
    (fun e he => by simp at he; subst he; exact hd)]
  simp

theorem serialize_obj_shape (kvs : List (String × Json)) :
    ∃ mid, Json.serialize (.obj kvs) = '{' :: (mid ++ ['}']) := by
  cases kvs with
  | nil => exact ⟨[], rfl⟩
  | cons kv kvs =>
    obtain ⟨k, v⟩ := kv
    exact ⟨('"' :: (escapeChars k.data ++ '"' :: ':' :: Json.serialize v)) ++
      Json.serializeObjTail kvs, rfl⟩

theorem braceSpan_shape (mid : List Char) :
    braceSpan ('{' :: (mid ++ ['}'])) = some ('{' :: (mid ++ ['}'])) := by
  unfold braceSpan
  rw [show firstIdxOf '{' ('{' :: (mid ++ ['}'])) = some 0 by simp [firstIdxOf]]
  rw [show ('{' :: (mid ++ ['}'])).reverse = '}' :: (mid.reverse ++ ['{']) by simp]
  rw [show firstIdxOf '}' ('}' :: (mid.reverse ++ ['{'])) = some 0 by simp [firstIdxOf]]
  simp only [List.length_cons, List.length_append, List.length_reverse, List.length_nil]
  rw [if_pos (by omega)]
  rw [List.drop_zero]
  rw [List.take_of_length_le (by simp)]

theorem mem_of_mem_dropWhile {p : Char → Bool} {l : List Char} {c : Char}
    (h : c ∈ l.dropWhile p) : c ∈ l := by
  induction l with
  | nil => simp [List.dropWhile] at h
  | cons x xs ih =>
    simp only [List.dropWhile] at h
    cases hx : p x with
    | true => rw [hx] at h; exact List.mem_cons_of_mem _ (ih h)
    | false => rw [hx] at h; exact h

/-- The fenced-block phase recovers the text between the fences when the
prose before the opening fence and the block contents are backtick-free
and the contents are brace-delimited. -/
theorem fenceStep_fenced {ser : List Char} {mid : List Char}
    (hshape : ser = '{' :: (mid ++ ['}']))
    (hser : ∀ c ∈ ser, c ≠ '`')
    (p1' p2' : List Char) (hp1' : ∀ c ∈ p1', c ≠ '`') :
    fenceStep (p1' ++ (fenceJson ++ ('\n' :: (ser ++ ('\n' :: (fenceMark ++ p2')))))) =
      ser := by
  have hfind : findSeq fenceJson
      (p1' ++ (fenceJson ++ ('\n' :: (ser ++ ('\n' :: (fenceMark ++ p2')))))) =
      some p1'.length :=
    findSeq_no_overlap rfl hp1' (isPrefixSeq_append_self _ _)
  have hcontains : containsSeq
      (p1' ++ (fenceJson ++ ('\n' :: (ser ++ ('\n' :: (fenceMark ++ p2')))))) fenceJson =
      true := by
    rw [containsSeq, hfind]
    rfl
  unfold fenceStep
  rw [hcontains]
  rw [if_pos rfl]
  unfold fencedInterior
  rw [hfind]
  have hdrop : (p1' ++ (fenceJson ++ ('\n' :: (ser ++ ('\n' :: (fenceMark ++ p2')))))).drop
      (p1'.length + fenceJson.length) =
      '\n' :: (ser ++ ('\n' :: (fenceMark ++ p2'))) := by
    rw [show p1' ++ (fenceJson ++ ('\n' :: (ser ++ ('\n' :: (fenceMark ++ p2'))))) =
      (p1' ++ fenceJson) ++ ('\n' :: (ser ++ ('\n' :: (fenceMark ++ p2')))) by simp]
    rw [show p1'.length + fenceJson.length = (p1' ++ fenceJson).length by simp]
    exact List.drop_left _ _
  simp only [hdrop]
  have hsplit : ('\n' : Char) :: (ser ++ ('\n' :: (fenceMark ++ p2'))) =
      (('\n' :: (ser ++ ['\n'])) ++ (fenceMark ++ p2')) := by
    simp
  have hfind2 : findSeq fenceMark ('\n' :: (ser ++ ('\n' :: (fenceMark ++ p2')))) =
      some ('\n' :: (ser ++ ['\n'])).length := by
    rw [hsplit]
    refine findSeq_no_overlap rfl ?_ (isPrefixSeq_append_self _ _)
    intro c hc
    simp at hc
    rcases hc with hc | hc | hc
    · subst hc; decide
    · exact hser c hc
    · subst hc; decide
  rw [hfind2]
  have htake : ('\n' :: (ser ++ ('\n' :: (fenceMark ++ p2')))).take
      ('\n' :: (ser ++ ['\n'])).length = '\n' :: (ser ++ ['\n']) := by
    rw [hsplit]
    exact List.take_left _ _
  simp only [htake]
  have : ('\n' : Char) :: (ser ++ ['\n']) =
      ['\n'] ++ (('{' :: (mid ++ ['}'])) ++ ['\n']) := by
    rw [← hshape]
    simp
  rw [this, trimChars_decomp _ _ _ (by decide) (by decide)]
  simp [List.dropWhile, isJsonWs, ← hshape]

/-- Candidate extraction recovers exactly the serialized object from a
` ```json ` fenced block surrounded by backtick-free prose, provided the
serialization itself contains no backtick. -/
theorem extractJsonCandidate_fenced (kvs : List (String × Json)) (p1 p2 : List Char)
    (hser : ∀ c ∈ Json.serialize (Json.obj kvs), c ≠ '`')
    (hp1 : ∀ c ∈ p1, c ≠ '`') :
    extractJsonCandidate
        (p1 ++ (fenceJson ++ ('\n' :: (Json.serialize (Json.obj kvs) ++
          ('\n' :: (fenceMark ++ p2)))))) =
      Json.serialize (Json.obj kvs) := by
  obtain ⟨mid, hshape⟩ := serialize_obj_shape kvs
  unfold extractJsonCandidate
  have hcore : ∀ q : List Char,
      fenceJson ++ ('\n' :: (Json.serialize (Json.obj kvs) ++ ('\n' :: (fenceMark ++ q)))) =
      (('`' : Char) :: ((['`', '`', 'j', 's', 'o', 'n', '\n'] ++
        (Json.serialize (Json.obj kvs) ++ ['\n', '`', '`'])) ++ ['`'])) ++ q := by
    intro q
    simp [fenceJson, fenceMark]
  rw [hcore p2]
  rw [trimChars_decomp p1
    (['`', '`', 'j', 's', 'o', 'n', '\n'] ++ (Json.serialize (Json.obj kvs) ++ ['\n', '`', '`']))
    p2 (by decide) (by decide)]
  rw [← hcore ((p2.reverse.dropWhile isJsonWs).reverse)]
  rw [fenceStep_fenced hshape hser _ _
    (fun c hc => hp1 c (mem_of_mem_dropWhile hc))]
  unfold braceStep
  rw [hshape, braceSpan_shape]

/-! ## Model Invoker (`callOpenAI` in `lib/llm-client.ts`)

The provider is an oracle mapping a call index and the request that the
code builds to an outcome (a raw response or a thrown API error).  The
embedding records the sequence of requests issued and the backoff delays
awaited, and returns the (exception-or-value) result of the call. -/

/-- Token usage as assembled by the invoker from provider metadata. -/
structure TokenUsage where
  promptTokens : ℚ
  completionTokens : ℚ
  cachedTokens : Option ℚ
  totalTokens : ℚ
deriving DecidableEq, Repr, Inhabited

/-- Cost breakdown computed by the invoker. -/
structure CostBreakdown where
  inputCost : ℚ
  cachedInputCost : ℚ
  outputCost : ℚ
  totalCost : ℚ
deriving DecidableEq, Repr, Inhabited

/-- Per-model price row (per 1M tokens). -/
structure ModelPricing where
  input : ℚ
  cached_input : ℚ
  output : ℚ
deriving DecidableEq, Repr, Inhabited

/-- Standard-tier price table (`MODEL_PRICING`). -/
def MODEL_PRICING (m : String) : Option ModelPricing :=
  if m = "gpt-5-mini" then some ⟨0.25, 0.025, 2.0⟩
  else if m = "gpt-5" then some ⟨1.25, 0.125, 10.0⟩
  else if m = "gpt-5.1" then some ⟨1.25, 0.125, 10.0⟩
  else if m = "gpt-4o" then some ⟨1.25, 0.125, 10.0⟩
  else none

/-- Flex-tier price table (`MODEL_PRICING_FLEX`), half the standard. -/
def MODEL_PRICING_FLEX (m : String) : Option ModelPricing :=
  if m = "gpt-5-mini" then some ⟨0.125, 0.0125, 1.0⟩
  else if m = "gpt-5" then some ⟨0.625, 0.0625, 5.0⟩
  else if m = "gpt-5.1" then some ⟨0.625, 0.0625, 5.0⟩
  else if m = "gpt-4o" then some ⟨0.625, 0.0625, 5.0⟩
  else none

/-- Price lookup with the `|| MODEL_PRICING['gpt-5.1']` fallback of the
code (the literal defaults here are exactly the `gpt-5.1` rows). -/
def pricingFor (flex : Bool) (usedModel : String) : ModelPricing :=
  if flex then (MODEL_PRICING_FLEX usedModel).getD ⟨0.625, 0.0625, 5.0⟩
  else (MODEL_PRICING usedModel).getD ⟨1.25, 0.125, 10.0⟩

/-- Raw usage block of a provider response (fields may be absent). -/
structure RawUsage where
  prompt_tokens : Option ℚ
  completion_tokens : Option ℚ
  cached_tokens : Option ℚ
  total_tokens : Option ℚ
deriving DecidableEq, Repr, Inhabited

/-- Raw provider response: optional first-choice message content and
optional usage metadata. -/
structure RawResponse where
  content : Option String
  usage : Option RawUsage
deriving DecidableEq, Repr, Inhabited

/-- A thrown provider error as inspected by the code. -/
structure ApiError where
  status : Option Nat
  message : String
  code : Option String
deriving DecidableEq, Repr, Inhabited

/-- Outcome of one provider call. -/
inductive CallOutcome where
  | ok (response : RawResponse)
  | err (e : ApiError)
deriving DecidableEq, Repr, Inhabited

/-- A request as issued by the invoker: model plus service tier. -/
structure LLMRequest where
  model : String
  serviceTierFlex : Bool
deriving DecidableEq, Repr, Inhabited

/-- Substring test on strings (models `String.prototype.includes`). -/
def strIncludes (s pat : String) : Bool := containsSeq s.data pat.data

/-- The code's test for flex-capacity exhaustion (429 plus a
resource-unavailable marker in message or code). -/
def isResourceUnavailable (e : ApiError) : Bool :=
  e.status == some 429 &&
    (strIncludes e.message "Resource Unavailable" ||
      strIncludes e.message "resource_unavailable" ||
      e.code == some "resource_unavailable")

/-- The code's test for a missing model (404, a message mentioning
"model", or the `model_not_found` code). -/
def isModelNotFound (e : ApiError) : Bool :=
  e.status == some 404 || strIncludes e.message "model" ||
    e.code == some "model_not_found"

/-- Backoff schedule of the flex retry loop. -/
def retryDelays : List Nat := [2000, 4000, 8000]

/-- Maximum flex attempts. -/
def maxRetries : Nat := 3

/-- Result of the invoker: exceptional or successful API response. -/
structure APIResponse where
  content : String
  usage : TokenUsage
  cost : CostBreakdown
  usedFlex : Bool
  fallbackToStandard : Bool
deriving DecidableEq, Repr, Inhabited

/-- Result of one `callOpenAI` run together with its observable trace:
the requests issued (in order) and the backoff delays awaited. -/
structure InvokeResult where
  result : Except String APIResponse
  requests : List LLMRequest
  delays : List Nat
deriving Repr

/-- State after the flex retry loop. -/
structure FlexLoopOut where
  response : Option RawResponse
  fellBack : Bool
  requests : List LLMRequest
  delays : List Nat
  nextCall : Nat
deriving Repr

/-- The flex retry loop (`for attempt in 0..<maxRetries`): retry on
capacity exhaustion with backoff, stop and fall back to the standard
tier on exhaustion of attempts or on any other error. -/
def flexLoop (provider : Nat → LLMRequest → CallOutcome) (model : String) :
    Nat → Nat → Nat → List LLMRequest → List Nat → FlexLoopOut
  | 0, _, callIdx, reqs, delays =>
      { response := none, fellBack := false, requests := reqs, delays := delays,
        nextCall := callIdx }
  | fuel + 1, attempt, callIdx, reqs, delays =>
    let req : LLMRequest := { model := model, serviceTierFlex := true }
    match provider callIdx req with
    | .ok resp =>
        { response := some resp, fellBack := false, requests := reqs ++ [req],
          delays := delays, nextCall := callIdx + 1 }
    | .err e =>
      if isResourceUnavailable e then
        if attempt < maxRetries - 1 then
          flexLoop provider model fuel (attempt + 1) (callIdx + 1) (reqs ++ [req])
            (delays ++ [retryDelays.getD attempt 0])
        else
          { response := none, fellBack := true, requests := reqs ++ [req],
            delays := delays, nextCall := callIdx + 1 }
      else
        { response := none, fellBack := true, requests := reqs ++ [req],
          delays := delays, nextCall := callIdx + 1 }

/-- Token-usage assembly (`tokenUsage` in the code, with `|| 0`
defaults). -/
def mkTokenUsage (u : RawUsage) : TokenUsage :=
  { promptTokens := u.prompt_tokens.getD 0,
    completionTokens := u.completion_tokens.getD 0,
    cachedTokens := some (u.cached_tokens.getD 0),
    totalTokens := u.total_tokens.getD 0 }

/-- Cost computation from a price row and assembled token usage. -/
def computeCost (pricing : ModelPricing) (t : TokenUsage) : CostBreakdown :=
  let inputTokens := t.promptTokens - t.cachedTokens.getD 0
  let cachedInputTokens := t.cachedTokens.getD 0
  let outputTokens := t.completionTokens
  let inputCost := inputTokens / 1000000 * pricing.input
  let cachedInputCost := cachedInputTokens / 1000000 * pricing.cached_input
  let outputCost := outputTokens / 1000000 * pricing.output
  { inputCost := inputCost, cachedInputCost := cachedInputCost,
    outputCost := outputCost, totalCost := inputCost + cachedInputCost + outputCost }

/-- Shared tail of `callOpenAI`: validate content and usage, assemble
token usage and costs (invalid responses throw, wrapped by the outer
catch). -/
def finishResponse (resp : RawResponse) (usedModel : String)
    (actuallyUsedFlex fellBack : Bool) : Except String APIResponse :=
  match resp.content with
  | none => .error ("Ошибка при вызове OpenAI API: " ++ "Пустой ответ от OpenAI API")
  | some content =>
    if content = "" then
      .error ("Ошибка при вызове OpenAI API: " ++ "Пустой ответ от OpenAI API")
    else
      match resp.usage with
      | none =>
          .error ("Ошибка при вызове OpenAI API: " ++
            "Не получена статистика использования токенов")
      | some u =>
        let tokenUsage := mkTokenUsage u
        .ok { content := content, usage := tokenUsage,
              cost := computeCost (pricingFor actuallyUsedFlex usedModel) tokenUsage,
              usedFlex := actuallyUsedFlex, fallbackToStandard := fellBack }

/-- The invoker `callOpenAI(systemPrompt, userContent, model, useFlex)`.
The prompts do not influence control flow; the provider oracle maps each
issued request (with its call index) to an outcome. -/
def callOpenAI (provider : Nat → LLMRequest → CallOutcome)
    (model : String) (useFlex : Bool) : InvokeResult :=
  if useFlex then
    let lo := flexLoop provider model maxRetries 0 0 [] []
    match lo.response with
    | some resp =>
        { result := finishResponse resp model true false,
          requests := lo.requests, delays := lo.delays }
    | none =>
      if lo.fellBack then
        let req : LLMRequest := { model := model, serviceTierFlex := false }
        match provider lo.nextCall req with
        | .ok resp =>
            { result := finishResponse resp model false true,
              requests := lo.requests ++ [req], delays := lo.delays }
        | .err se =>
          if isModelNotFound se then
            let req2 : LLMRequest := { model := "gpt-4o", serviceTierFlex := false }
            match provider (lo.nextCall + 1) req2 with
            | .ok resp =>
                { result := finishResponse resp "gpt-4o" false true,
                  requests := lo.requests ++ [req, req2], delays := lo.delays }
            | .err e2 =>
                { result := .error ("Ошибка при вызове OpenAI API: " ++ e2.message),
                  requests := lo.requests ++ [req, req2], delays := lo.delays }
          else
            { result := .error ("Ошибка при вызове OpenAI API: " ++ se.message),
              requests := lo.requests ++ [req], delays := lo.delays }
      else
        { result := .error "Ошибка при вызове OpenAI API: undefined response",
          requests := lo.requests, delays := lo.delays }
  else
    let req : LLMRequest := { model := model, serviceTierFlex := false }
    match provider 0 req with
    | .ok resp =>
        { result := finishResponse resp model false false,
          requests := [req], delays := [] }
    | .err me =>
      if isModelNotFound me then
        let req2 : LLMRequest := { model := "gpt-4o", serviceTierFlex := false }
        match provider 1 req2 with
        | .ok resp =>
            { result := finishResponse resp "gpt-4o" false false,
              requests := [req, req2], delays := [] }
        | .err e2 =>
            { result := .error ("Ошибка при вызове OpenAI API: " ++ e2.message),
              requests := [req, req2], delays := [] }
      else
        { result := .error ("Ошибка при вызове OpenAI API: " ++ me.message),
          requests := [req], delays := [] }

/-- Provider oracle built from a list of scripted outcomes, one per call
in order. -/
def providerOfList (l : List CallOutcome) : Nat → LLMRequest → CallOutcome :=
  fun n _ => l.getD n (.err { status := none, message := "", code := none })

/-- A provider response that passes the invoker's validation. -/
def goodResponse (r : RawResponse) : Prop :=
  (∃ s, r.content = some s ∧ s ≠ "") ∧ r.usage.isSome

theorem callOpenAI_flex_allCapacity (m : String) {s : String}
    {e1 e2 e3 : ApiError} {r : RawResponse} {u : RawUsage}
    (h1 : isResourceUnavailable e1 = true) (h2 : isResourceUnavailable e2 = true)
    (h3 : isResourceUnavailable e3 = true)
    (hc : r.content = some s) (hs : s ≠ "") (hu : r.usage = some u) :
    (callOpenAI (providerOfList [.err e1, .err e2, .err e3, .ok r]) m true).result =
      .ok { content := s, usage := mkTokenUsage u,
            cost := computeCost (pricingFor false m) (mkTokenUsage u),
            usedFlex := false, fallbackToStandard := true } ∧
    (callOpenAI (providerOfList [.err e1, .err e2, .err e3, .ok r]) m true).requests =
      [{ model := m, serviceTierFlex := true }, { model := m, serviceTierFlex := true },
       { model := m, serviceTierFlex := true }, { model := m, serviceTierFlex := false }] := by
  constructor <;>
    simp [callOpenAI, flexLoop, providerOfList, finishResponse, h1, h2, h3, hc, hs, hu,
      maxRetries, retryDelays]

theorem callOpenAI_flex_capacityTwiceThenOk (m : String) {s : String}
    {e1 e2 : ApiError} {r : RawResponse} {u : RawUsage}
    (h1 : isResourceUnavailable e1 = true) (h2 : isResourceUnavailable e2 = true)
    (hc : r.content = some s) (hs : s ≠ "") (hu : r.usage = some u) :
    (callOpenAI (providerOfList [.err e1, .err e2, .ok r]) m true).result =
      .ok { content := s, usage := mkTokenUsage u,
            cost := computeCost (pricingFor true m) (mkTokenUsage u),
            usedFlex := true, fallbackToStandard := false } ∧
    (callOpenAI (providerOfList [.err e1, .err e2, .ok r]) m true).delays =
      [2000, 4000] := by
  constructor <;>
    simp [callOpenAI, flexLoop, providerOfList, finishResponse, h1, h2, hc, hs, hu,
      maxRetries, retryDelays]

theorem callOpenAI_flex_otherError (m : String) {s : String}
    {e : ApiError} {r : RawResponse} {u : RawUsage}
    (he : isResourceUnavailable e = false)
    (hc : r.content = some s) (hs : s ≠ "") (hu : r.usage = some u) :
    (callOpenAI (providerOfList [.err e, .ok r]) m true).result =
      .ok { content := s, usage := mkTokenUsage u,
            cost := computeCost (pricingFor false m) (mkTokenUsage u),
            usedFlex := false, fallbackToStandard := true } ∧
    (callOpenAI (providerOfList [.err e, .ok r]) m true).requests =
      [{ model := m, serviceTierFlex := true }, { model := m, serviceTierFlex := false }] := by
  constructor <;>
    simp [callOpenAI, flexLoop, providerOfList, finishResponse, he, hc, hs, hu,
      maxRetries, retryDelays]

theorem callOpenAI_std_modelNotFound (m : String) {s : String}
    {e : ApiError} {r : RawResponse} {u : RawUsage}
    (he : isModelNotFound e = true)
    (hc : r.content = some s) (hs : s ≠ "") (hu : r.usage = some u) :
    (callOpenAI (providerOfList [.err e, .ok r]) m false).result =
      .ok { content := s, usage := mkTokenUsage u,
            cost := computeCost (pricingFor false "gpt-4o") (mkTokenUsage u),
            usedFlex := false, fallbackToStandard := false } ∧
    (callOpenAI (providerOfList [.err e, .ok r]) m false).requests =
      [{ model := m, serviceTierFlex := false },
       { model := "gpt-4o", serviceTierFlex := false }] := by
  constructor <;> simp [callOpenAI, providerOfList, finishResponse, he, hc, hs, hu]

theorem callOpenAI_std_otherError (m : String) {e : ApiError}
    (he : isModelNotFound e = false) :
    (callOpenAI (providerOfList [.err e]) m false).result =
      .error ("Ошибка при вызове OpenAI API: " ++ e.message) ∧
    (callOpenAI (providerOfList [.err e]) m false).requests =
      [{ model := m, serviceTierFlex := false }] := by
  constructor <;> simp [callOpenAI, providerOfList, he]

theorem callOpenAI_std_emptyContent (m : String) {r : RawResponse}
    (hc : r.content = some "" ∨ r.content = none) :
    (callOpenAI (providerOfList [.ok r]) m false).result =
      .error ("Ошибка при вызове OpenAI API: " ++ "Пустой ответ от OpenAI API") ∧
    (callOpenAI (providerOfList [.ok r]) m false).requests.length = 1 := by
  rcases hc with hc | hc <;>
    (constructor <;> simp [callOpenAI, providerOfList, finishResponse, hc])

theorem callOpenAI_std_missingUsage (m : String) {s : String} {r : RawResponse}
    (hc : r.content = some s) (hs : s ≠ "") (hu : r.usage = none) :
    (callOpenAI (providerOfList [.ok r]) m false).result =
      .error ("Ошибка при вызове OpenAI API: " ++
        "Не получена статистика использования токенов") ∧
    (callOpenAI (providerOfList [.ok r]) m false).requests.length = 1 := by
  constructor <;> simp [callOpenAI, providerOfList, finishResponse, hc, hs, hu]

/-! ## Document-processing pipeline (`processDocumentsPipeline`)

External effects are supplied by environments: per-file conversion and
stage-0 LLM outcomes, prompt loading per stage, the stage-1 LLM outcome
as a function of the document it is invoked on, the stage-3/4 outcomes
as functions of their serialized inputs, and the persistence step.
JavaScript truthiness is modelled explicitly where the code relies on
it. -/

/-- A prompt file split into SYSTEM and USER parts. -/
structure PromptParts where
  systemPrompt : String
  userPrompt : String
deriving DecidableEq, Repr, Inhabited

/-- Pipeline-facing view of one LLM call result. -/
structure StageAPIResponse where
  content : String
  usage : TokenUsage
  cost : CostBreakdown
deriving DecidableEq, Repr, Inhabited

/-- Per-document lifecycle record (`DocumentProcessingResult`).  Optional
fields are absent (`none`) exactly when the TypeScript object lacks
them. -/
structure DocumentProcessingResult where
  fileName : String
  caseNumber : Option String
  markdown : String
  legalPosition : String
  legalPositionParsed : Option Json
  caseCard : Option Json
  caseCardRaw : Option String
  error : Option String
deriving DecidableEq, Repr, Inhabited

/-- JavaScript truthiness of an optional string (absent and `''` are
falsy). -/
def jsTruthyStr : Option String → Bool
  | none => false
  | some s => s != ""

/-- JavaScript truthiness of a JSON value. -/
def jsTruthyJson : Json → Bool
  | .null => false
  | .bool b => b
  | .num n => n != 0
  | .str s => s != ""
  | .arr _ => true
  | .obj _ => true

/-- Property lookup on a JSON value (duplicate keys: the last assignment
wins, as for a JavaScript object built by `JSON.parse`); `none` for
non-objects. -/
def Json.getField (j : Json) (k : String) : Option Json :=
  match j with
  | .obj kvs => ((kvs.filter (fun kv => kv.1 == k)).getLast?).map (·.2)
  | _ => none

/-- Property assignment on a JSON object (replace in place or append).
On non-objects the assignment is modelled as a no-op. -/
def Json.setField (j : Json) (k : String) (v : Json) : Json :=
  match j with
  | .obj kvs =>
    if kvs.any (fun kv => kv.1 == k) then
      .obj (kvs.map (fun kv => if kv.1 == k then (kv.1, v) else kv))
    else .obj (kvs ++ [(k, v)])
  | other => other

/-- String-valued property lookup. -/
def jsonFieldStr (j : Json) (k : String) : Option String :=
  match Json.getField j k with
  | some (.str s) => some s
  | _ => none

/-- The falsy-default operator `x || d` for optional strings. -/
def jsStrOr (o : Option String) (d : String) : String :=
  match o with
  | some s => if s = "" then d else s
  | none => d

/-- `legalPositionParsed?.level1?.case_number || ''`. -/
def caseNumberOf (j : Json) : String :=
  match Json.getField j "level1" with
  | some l1 => jsStrOr (jsonFieldStr l1 "case_number") ""
  | none => ""

/-- The validation `!parsed || typeof parsed !== 'object'` accepts
exactly objects and arrays (`typeof null`/array is `'object'`, but
`null` is falsy). -/
def isObjectLike : Json → Bool
  | .obj _ => true
  | .arr _ => true
  | _ => false

/-- Zero cost record returned with failed per-document steps. -/
def zeroCost : CostBreakdown := ⟨0, 0, 0, 0⟩

/-- Zero usage record returned with failed per-document steps (the code
builds it without a `cachedTokens` field). -/
def zeroUsage : TokenUsage := ⟨0, 0, none, 0⟩

instance {E A : Type} [DecidableEq E] [DecidableEq A] : DecidableEq (Except E A) := fun a b =>
  match a, b with
  | .error x, .error y =>
    if h : x = y then isTrue (by rw [h]) else isFalse (fun hh => by cases hh; exact h rfl)
  | .error _, .ok _ => isFalse (fun hh => Except.noConfusion hh)
  | .ok _, .error _ => isFalse (fun hh => Except.noConfusion hh)
  | .ok x, .ok y =>
    if h : x = y then isTrue (by rw [h]) else isFalse (fun hh => by cases hh; exact h rfl)

/-- One input file together with its external-effect outcomes: the
document conversion result and the stage-0 LLM outcome. -/
structure FileInput where
  fileName : String
  conversion : Except String String
  s0response : Except String StageAPIResponse
deriving DecidableEq, Repr, Inhabited

/-- A per-document stage result with its cost/usage pair. -/
structure StepOut where
  result : DocumentProcessingResult
  cost : CostBreakdown
  usage : TokenUsage
deriving DecidableEq, Repr, Inhabited

/-- Error outcome of stage 0 for one document. -/
def step0ErrOut (fileName e : String) : StepOut :=
  { result := { fileName := fileName
                caseNumber := none
                markdown := ""
                legalPosition := ""
                legalPositionParsed := none
                caseCard := none
                caseCardRaw := none
                error := some e }
    cost := zeroCost
    usage := zeroUsage }

/-- Stage 0 (`processDocumentStep0`): convert, prompt, invoke, extract
and validate the ten-level position; any failure is captured on the
document record.  The `JSON.parse` failure message embeds the first 500
characters of the candidate (the parser's own message text is
provider-defined and modelled by a fixed marker). -/
def processDocumentStep0 (s0prompt : Except String PromptParts) (f : FileInput) : StepOut :=
  match f.conversion with
  | .error e => step0ErrOut f.fileName e
  | .ok markdown =>
    match s0prompt with
    | .error e => step0ErrOut f.fileName e
    | .ok _ =>
      match f.s0response with
      | .error e => step0ErrOut f.fileName e
      | .ok api =>
        let legalPositionJson := extractJsonCandidate api.content.data
        let failMsg := "Не удалось распарсить JSON из ответа LLM: " ++
          "SyntaxError" ++ ". Первые 500 символов ответа: " ++
          String.mk (legalPositionJson.take 500)
        let objMsg := "Не удалось распарсить JSON из ответа LLM: " ++
          "JSON не является объектом" ++ ". Первые 500 символов ответа: " ++
          String.mk (legalPositionJson.take 500)
        match Json.parseChars legalPositionJson with
        | none => step0ErrOut f.fileName failMsg
        | some parsed =>
          if isObjectLike parsed then
            { result := { fileName := f.fileName
                          caseNumber := some (caseNumberOf parsed)
                          markdown := markdown
                          legalPosition := String.mk legalPositionJson
                          legalPositionParsed := some parsed
                          caseCard := none
                          caseCardRaw := none
                          error := none }
              cost := api.cost
              usage := api.usage }
          else step0ErrOut f.fileName objMsg

/-- Error outcome of stage 1 for one document. -/
def step1ErrOut (document : DocumentProcessingResult) (e : String) : StepOut :=
  { result := { document with error := some ("Ошибка при создании карточки дела: " ++ e) },
    cost := zeroCost, usage := zeroUsage }

/-- Stage 1 (`processStep1`): compress the position into a case card,
injecting the upstream case number when the model omits it. -/
def processStep1 (s1prompt : Except String PromptParts)
    (respond : DocumentProcessingResult → Except String StageAPIResponse)
    (document : DocumentProcessingResult) : StepOut :=
  match document.legalPositionParsed with
  | none =>
      { result := { document with error := some "Нет правовой позиции для создания карточки" },
        cost := zeroCost, usage := zeroUsage }
  | some _ =>
    match s1prompt with
    | .error e => step1ErrOut document e
    | .ok _ =>
      match respond document with
      | .error e => step1ErrOut document e
      | .ok api =>
        let caseCardJson := extractJsonCandidate api.content.data
        match Json.parseChars caseCardJson with
        | none => step1ErrOut document "SyntaxError"
        | some card =>
          let card :=
            if !(jsTruthyJson ((Json.getField card "caseNumber").getD .null)) &&
                jsTruthyStr document.caseNumber then
              Json.setField card "caseNumber" (.str (document.caseNumber.getD ""))
            else card
          { result := { document with
                          caseCard := some card
                          caseCardRaw := some (String.mk caseCardJson) }
            cost := api.cost
            usage := api.usage }

/-- Stage 2 (`processStep2`): the formal grouping step, an identity. -/
def processStep2 (caseCards : List Json) : List Json := caseCards

/-- One serialized card entry of stage 3/4: case index and file
name/number attached to the card before serialization. -/
structure CardEntry where
  index : Nat
  fileName : String
  caseNumber : String
  card : Json
deriving DecidableEq, Repr, Inhabited

/-- The `cardsData` construction of `processStep3` (repeated verbatim as
`cardsContext` in `processStep4`): the i-th card is paired with
`documents[i]?.fileName` and `documents[i]?.caseNumber` of the full
document list. -/
def step3CardsData (caseCards : List Json) (documents : List DocumentProcessingResult) :
    List CardEntry :=
  caseCards.enum.map (fun p =>
    { index := p.1 + 1,
      fileName := jsStrOr ((documents[p.1]?).map (·.fileName))
        ("Документ " ++ toString (p.1 + 1)),
      caseNumber := jsStrOr ((documents[p.1]?).bind (·.caseNumber))
        (jsStrOr (jsonFieldStr p.2 "caseNumber") ""),
      card := p.2 })

/-- Stage 3 (`processStep3`): aggregate all cards into the review
skeleton; any failure is rethrown as a stage-level error. -/
def processStep3 (s3prompt : Except String PromptParts)
    (respond : List CardEntry → Except String StageAPIResponse)
    (caseCards : List Json) (documents : List DocumentProcessingResult) :
    Except String (Json × CostBreakdown × TokenUsage) :=
  if caseCards.length = 0 then
    .error "Нет карточек для создания скелета обзора"
  else
    match s3prompt with
    | .error e => .error ("Ошибка при создании скелета обзора: " ++ e)
    | .ok _ =>
      match respond (step3CardsData caseCards documents) with
      | .error e => .error ("Ошибка при создании скелета обзора: " ++ e)
      | .ok api =>
        match Json.parseChars (extractJsonCandidate api.content.data) with
        | none => .error ("Ошибка при создании скелета обзора: " ++ "SyntaxError")
        | some skeleton => .ok (skeleton, api.cost, api.usage)

/-- Stage 4 (`processStep4`): synthesize the final review; raw model
text is the deliverable. -/
def processStep4 (s4prompt : Except String PromptParts)
    (respond : Json → List CardEntry → Except String StageAPIResponse)
    (skeleton : Json) (caseCards : List Json)
    (documents : List DocumentProcessingResult) :
    Except String (String × CostBreakdown × TokenUsage) :=
  match s4prompt with
  | .error e => .error ("Ошибка при создании финального обзора: " ++ e)
  | .ok _ =>
    match respond skeleton (step3CardsData caseCards documents) with
    | .error e => .error ("Ошибка при создании финального обзора: " ++ e)
    | .ok api => .ok (api.content, api.cost, api.usage)

/-! ### Cost accounting -/

/-- A four-field token or cost block. -/
structure StatBlock where
  input : ℚ
  cachedInput : ℚ
  output : ℚ
  total : ℚ
deriving DecidableEq, Repr, Inhabited

/-- All-zero block. -/
def zeroBlock : StatBlock := ⟨0, 0, 0, 0⟩

/-- Per-stage cost statistics (`StepCostStatistics`). -/
structure StepCostStatistics where
  step : Nat
  stepName : String
  model : Option String
  calls : Nat
  tokens : StatBlock
  cost : StatBlock
deriving DecidableEq, Repr, Inhabited

/-- Run-level totals. -/
structure CostTotals where
  tokens : StatBlock
  cost : StatBlock
deriving DecidableEq, Repr, Inhabited

/-- Run cost statistics (`CostStatistics`). -/
structure CostStatistics where
  steps : List StepCostStatistics
  total : CostTotals
deriving DecidableEq, Repr, Inhabited

/-- Fold one call's usage/cost into per-stage accumulators (the
`forEach` bodies of the stage-0/1 statistics). -/
def addCallStats (acc : StatBlock × StatBlock) (cu : CostBreakdown × TokenUsage) :
    StatBlock × StatBlock :=
  let inputTokens := cu.2.promptTokens - cu.2.cachedTokens.getD 0
  ( { input := acc.1.input + inputTokens,
      cachedInput := acc.1.cachedInput + cu.2.cachedTokens.getD 0,
      output := acc.1.output + cu.2.completionTokens,
      total := acc.1.total + cu.2.totalTokens },
    { input := acc.2.input + cu.1.inputCost,
      cachedInput := acc.2.cachedInput + cu.1.cachedInputCost,
      output := acc.2.output + cu.1.outputCost,
      total := acc.2.total + cu.1.totalCost } )

/-- Accumulate a list of per-call records starting from zero. -/
def accumStats (rs : List (CostBreakdown × TokenUsage)) : StatBlock × StatBlock :=
  rs.foldl addCallStats (zeroBlock, zeroBlock)

/-- Statistics of a single-call stage (stages 3 and 4). -/
def singleCallStats (stepIdx : Nat) (stepName modelName : String)
    (c : CostBreakdown) (u : TokenUsage) : StepCostStatistics :=
  { step := stepIdx
    stepName := stepName
    model := some modelName
    calls := 1
    tokens := { input := u.promptTokens - u.cachedTokens.getD 0
                cachedInput := u.cachedTokens.getD 0
                output := u.completionTokens
                total := u.totalTokens }
    cost := { input := c.inputCost
              cachedInput := c.cachedInputCost
              output := c.outputCost
              total := c.totalCost } }

/-- Fold one stage entry into the run total (the final `forEach`). -/
def addStepToTotal (t : CostTotals) (s : StepCostStatistics) : CostTotals :=
  { tokens := { input := t.tokens.input + s.tokens.input
                cachedInput := t.tokens.cachedInput + s.tokens.cachedInput
                output := t.tokens.output + s.tokens.output
                total := t.tokens.total + s.tokens.total }
    cost := { input := t.cost.input + s.cost.input
              cachedInput := t.cost.cachedInput + s.cost.cachedInput
              output := t.cost.output + s.cost.output
              total := t.cost.total + s.cost.total } }

/-- Sum of stage entries starting from zero totals. -/
def totalsOf (steps : List StepCostStatistics) : CostTotals :=
  steps.foldl addStepToTotal ⟨zeroBlock, zeroBlock⟩

/-! ### The orchestrator -/

/-- Environment of a pipeline run: prompt outcomes per stage, LLM
outcomes as functions of the request-determining data, and the
persistence outcome. -/
structure PipelineEnv where
  s0prompt : Except String PromptParts
  s1prompt : Except String PromptParts
  s3prompt : Except String PromptParts
  s4prompt : Except String PromptParts
  s1response : DocumentProcessingResult → Except String StageAPIResponse
  s3response : List CardEntry → Except String StageAPIResponse
  s4response : Json → List CardEntry → Except String StageAPIResponse
  save : List DocumentProcessingResult → Json → String → Except String Unit

/-- The pipeline result (`PipelineResult`; every return path populates
`costStatistics`, so it is not optional here). -/
structure PipelineResult where
  documents : List DocumentProcessingResult
  caseCards : List Json
  reviewSkeleton : Option Json
  review : String
  costStatistics : CostStatistics
  error : Option String
deriving Repr, Inhabited

/-- Stage-0 outputs, one per input file, in input order. -/
def pipelineStep0Results (env : PipelineEnv) (files : List FileInput) : List StepOut :=
  files.map (processDocumentStep0 env.s0prompt)

/-- The per-document records after stage 0. -/
def pipelineDocuments (env : PipelineEnv) (files : List FileInput) :
    List DocumentProcessingResult :=
  (pipelineStep0Results env files).map (·.result)

/-- Stage-0 statistics. -/
def pipelineStep0Stats (env : PipelineEnv) (files : List FileInput) : StepCostStatistics :=
  let rs := pipelineStep0Results env files
  let acc := accumStats (rs.map (fun r => (r.cost, r.usage)))
  { step := 0, stepName := "Извлечение правовых позиций",
    model := some "x-ai/grok-4.1-fast", calls := rs.length,
    tokens := acc.1, cost := acc.2 }

/-- The survivor filter `!doc.error && doc.legalPositionParsed`
(truthiness of the error string and of the parsed object). -/
def docUsable (d : DocumentProcessingResult) : Bool :=
  !(jsTruthyStr d.error) && d.legalPositionParsed.isSome

/-- `documents.some(doc => !doc.error && doc.legalPositionParsed)`. -/
def pipelineHasValid (env : PipelineEnv) (files : List FileInput) : Bool :=
  (pipelineDocuments env files).any docUsable

/-- The documents stage 1 is invoked on. -/
def pipelineSurvivors (env : PipelineEnv) (files : List FileInput) :
    List DocumentProcessingResult :=
  (pipelineDocuments env files).filter docUsable

/-- Stage-1 outputs over the survivors. -/
def pipelineStep1Results (env : PipelineEnv) (files : List FileInput) : List StepOut :=
  (pipelineSurvivors env files).map (processStep1 env.s1prompt env.s1response)

/-- The records produced by stage 1. -/
def pipelineDocumentsWithCards (env : PipelineEnv) (files : List FileInput) :
    List DocumentProcessingResult :=
  (pipelineStep1Results env files).map (·.result)

/-- The merge back into the full list by file-name lookup:
`documents.map(doc => documentsWithCards.find(d => d.fileName === doc.fileName) || doc)`. -/
def pipelineUpdatedDocuments (env : PipelineEnv) (files : List FileInput) :
    List DocumentProcessingResult :=
  (pipelineDocuments env files).map (fun doc =>
    ((pipelineDocumentsWithCards env files).find? (fun d => d.fileName == doc.fileName)).getD doc)

/-- Stage-1 statistics. -/
def pipelineStep1Stats (env : PipelineEnv) (files : List FileInput) : StepCostStatistics :=
  let rs := pipelineStep1Results env files
  let acc := accumStats (rs.map (fun r => (r.cost, r.usage)))
  { step := 1, stepName := "Создание карточек дел",
    model := some "google/gemini-2.5-flash-lite-preview-09-2025", calls := rs.length,
    tokens := acc.1, cost := acc.2 }

/-- `updatedDocuments.filter(doc => doc.caseCard).map(doc => doc.caseCard!)`
(truthiness: a card that is a falsy JSON value is filtered out). -/
def pipelineCaseCards (env : PipelineEnv) (files : List FileInput) : List Json :=
  (pipelineUpdatedDocuments env files).filterMap (fun doc =>
    match doc.caseCard with
    | some c => if jsTruthyJson c then some c else none
    | none => none)

/-- The stage-3 call of the run. -/
def pipelineStep3 (env : PipelineEnv) (files : List FileInput) :
    Except String (Json × CostBreakdown × TokenUsage) :=
  processStep3 env.s3prompt env.s3response
    (processStep2 (pipelineCaseCards env files)) (pipelineUpdatedDocuments env files)

/-- The stage-4 call of the run. -/
def pipelineStep4 (env : PipelineEnv) (files : List FileInput) (skeleton : Json) :
    Except String (String × CostBreakdown × TokenUsage) :=
  processStep4 env.s4prompt env.s4response skeleton
    (processStep2 (pipelineCaseCards env files)) (pipelineUpdatedDocuments env files)

/-- The result built by the outer `catch` of the orchestrator: empty
documents and cards, empty review, all-zero cost statistics, and the
thrown message as the run-level error. -/
def catchResult (e : String) : PipelineResult :=
  { documents := [], caseCards := [], reviewSkeleton := none, review := "",
    costStatistics := { steps := [], total := ⟨zeroBlock, zeroBlock⟩ },
    error := some e }

/-- The full pipeline orchestrator (`processDocumentsPipeline`).  The
progress callback performs no computation and is omitted. -/
def processDocumentsPipeline (env : PipelineEnv) (files : List FileInput) : PipelineResult :=
  let documents := pipelineDocuments env files
  let step0Stats := pipelineStep0Stats env files
  if pipelineHasValid env files = false then
    { documents := documents
      caseCards := []
      reviewSkeleton := none
      review := ""
      costStatistics :=
        { steps := [step0Stats]
          total := { tokens := { input := step0Stats.tokens.input
                                 cachedInput := step0Stats.tokens.cachedInput
                                 output := step0Stats.tokens.output
                                 total := step0Stats.tokens.total }
                     cost := step0Stats.cost } }
      error := some "Все документы обработаны с ошибками" }
  else
    let updatedDocuments := pipelineUpdatedDocuments env files
    let step1Stats := pipelineStep1Stats env files
    let caseCards := pipelineCaseCards env files
    if caseCards.length = 0 then
      { documents := updatedDocuments
        caseCards := []
        reviewSkeleton := none
        review := ""
        costStatistics :=
          { steps := [step0Stats, step1Stats]
            total :=
              { tokens :=
                  { input := step0Stats.tokens.input + step1Stats.tokens.input
                    cachedInput := step0Stats.tokens.cachedInput + step1Stats.tokens.cachedInput
                    output := step0Stats.tokens.output + step1Stats.tokens.output
                    total := step0Stats.tokens.total + step1Stats.tokens.total }
                cost :=
                  { input := step0Stats.cost.input + step1Stats.cost.input
                    cachedInput := step0Stats.cost.cachedInput + step1Stats.cost.cachedInput
                    output := step0Stats.cost.output + step1Stats.cost.output
                    total := step0Stats.cost.total + step1Stats.cost.total } } }
        error := some "Не удалось создать карточки дел" }
    else
      let groupedCards := processStep2 caseCards
      match pipelineStep3 env files with
      | .error e => catchResult e
      | .ok (skeleton, c3, u3) =>
        let step3Stats := singleCallStats 3 "Создание скелета обзора" "deepseek/deepseek-v3.2" c3 u3
        match pipelineStep4 env files skeleton with
        | .error e => catchResult e
        | .ok (review, c4, u4) =>
          let step4Stats := singleCallStats 4 "Генерация финального обзора"
            "google/gemini-2.5-flash-preview-09-2025" c4 u4
          let steps := [step0Stats, step1Stats, step3Stats, step4Stats]
          match env.save updatedDocuments skeleton review with
          | .error e => catchResult e
          | .ok _ =>
            { documents := updatedDocuments
              caseCards := groupedCards
              reviewSkeleton := some skeleton
              review := review
              costStatistics := { steps := steps, total := totalsOf steps }
              error := none }

/-! ### Path lemmas for the orchestrator -/

theorem pipeline_path1 (env : PipelineEnv) (files : List FileInput)
    (h : pipelineHasValid env files = false) :
    processDocumentsPipeline env files =
      { documents := pipelineDocuments env files, caseCards := [],
        reviewSkeleton := none, review := "",
        costStatistics :=
          { steps := [pipelineStep0Stats env files]
            total := { tokens := (pipelineStep0Stats env files).tokens
                       cost := (pipelineStep0Stats env files).cost } },
        error := some "Все документы обработаны с ошибками" } := by
  unfold processDocumentsPipeline
  rw [if_pos h]

theorem pipeline_path2 (env : PipelineEnv) (files : List FileInput)
    (h1 : pipelineHasValid env files = true)
    (h2 : (pipelineCaseCards env files).length = 0) :
    processDocumentsPipeline env files =
      { documents := pipelineUpdatedDocuments env files, caseCards := [],
        reviewSkeleton := none, review := "",
        costStatistics :=
          { steps := [pipelineStep0Stats env files, pipelineStep1Stats env files]
            total :=
              { tokens :=
                  { input := (pipelineStep0Stats env files).tokens.input +
                      (pipelineStep1Stats env files).tokens.input
                    cachedInput := (pipelineStep0Stats env files).tokens.cachedInput +
                      (pipelineStep1Stats env files).tokens.cachedInput
                    output := (pipelineStep0Stats env files).tokens.output +
                      (pipelineStep1Stats env files).tokens.output
                    total := (pipelineStep0Stats env files).tokens.total +
                      (pipelineStep1Stats env files).tokens.total }
                cost :=
                  { input := (pipelineStep0Stats env files).cost.input +
                      (pipelineStep1Stats env files).cost.input
                    cachedInput := (pipelineStep0Stats env files).cost.cachedInput +
                      (pipelineStep1Stats env files).cost.cachedInput
                    output := (pipelineStep0Stats env files).cost.output +
                      (pipelineStep1Stats env files).cost.output
                    total := (pipelineStep0Stats env files).cost.total +
                      (pipelineStep1Stats env files).cost.total } } },
        error := some "Не удалось создать карточки дел" } := by
  unfold processDocumentsPipeline
  rw [if_neg (by simp [h1]), if_pos h2]

theorem pipeline_path3_err (env : PipelineEnv) (files : List FileInput) (e : String)
    (h1 : pipelineHasValid env files = true)
    (h2 : (pipelineCaseCards env files).length ≠ 0)
    (h3 : pipelineStep3 env files = .error e) :
    processDocumentsPipeline env files = catchResult e := by
  unfold processDocumentsPipeline
  rw [if_neg (by simp [h1]), if_neg h2]
  simp only [h3]

theorem pipeline_path4_err (env : PipelineEnv) (files : List FileInput) (e : String)
    (sk : Json) (c3 : CostBreakdown) (u3 : TokenUsage)
    (h1 : pipelineHasValid env files = true)
    (h2 : (pipelineCaseCards env files).length ≠ 0)
    (h3 : pipelineStep3 env files = .ok (sk, c3, u3))
    (h4 : pipelineStep4 env files sk = .error e) :
    processDocumentsPipeline env files = catchResult e := by
  unfold processDocumentsPipeline
  rw [if_neg (by simp [h1]), if_neg h2]
  simp only [h3, h4]

theorem pipeline_path_save_err (env : PipelineEnv) (files : List FileInput) (e : String)
    (sk : Json) (c3 : CostBreakdown) (u3 : TokenUsage)
    (rv : String) (c4 : CostBreakdown) (u4 : TokenUsage)
    (h1 : pipelineHasValid env files = true)
    (h2 : (pipelineCaseCards env files).length ≠ 0)
    (h3 : pipelineStep3 env files = .ok (sk, c3, u3))
    (h4 : pipelineStep4 env files sk = .ok (rv, c4, u4))
    (h5 : env.save (pipelineUpdatedDocuments env files) sk rv = .error e) :
    processDocumentsPipeline env files = catchResult e := by
  unfold processDocumentsPipeline
  rw [if_neg (by simp [h1]), if_neg h2]
  simp only [h3, h4, h5]

theorem pipeline_success (env : PipelineEnv) (files : List FileInput)
    (sk : Json) (c3 : CostBreakdown) (u3 : TokenUsage)
    (rv : String) (c4 : CostBreakdown) (u4 : TokenUsage)
    (h1 : pipelineHasValid env files = true)
    (h2 : (pipelineCaseCards env files).length ≠ 0)
    (h3 : pipelineStep3 env files = .ok (sk, c3, u3))
    (h4 : pipelineStep4 env files sk = .ok (rv, c4, u4))
    (h5 : env.save (pipelineUpdatedDocuments env files) sk rv = .ok ()) :
    processDocumentsPipeline env files =
      { documents := pipelineUpdatedDocuments env files
        caseCards := processStep2 (pipelineCaseCards env files)
        reviewSkeleton := some sk
        review := rv
        costStatistics :=
          { steps := [pipelineStep0Stats env files, pipelineStep1Stats env files,
              singleCallStats 3 "Создание скелета обзора" "deepseek/deepseek-v3.2" c3 u3,
              singleCallStats 4 "Генерация финального обзора"
                "google/gemini-2.5-flash-preview-09-2025" c4 u4]
            total := totalsOf [pipelineStep0Stats env files, pipelineStep1Stats env files,
              singleCallStats 3 "Создание скелета обзора" "deepseek/deepseek-v3.2" c3 u3,
              singleCallStats 4 "Генерация финального обзора"
                "google/gemini-2.5-flash-preview-09-2025" c4 u4] }
        error := none } := by
  unfold processDocumentsPipeline
  rw [if_neg (by simp [h1]), if_neg h2]
  simp only [h3, h4, h5]

/-! ### Supporting lemmas about the stages -/

theorem processDocumentStep0_fileName (p : Except String PromptParts) (f : FileInput) :
    (processDocumentStep0 p f).result.fileName = f.fileName := by
  unfold processDocumentStep0 step0ErrOut
  split <;> try rfl
  split <;> try rfl
  split <;> try rfl
  dsimp only
  split <;> try rfl
  split <;> rfl

theorem processStep1_fileName (p : Except String PromptParts)
    (respond : DocumentProcessingResult → Except String StageAPIResponse)
    (d : DocumentProcessingResult) :
    (processStep1 p respond d).result.fileName = d.fileName := by
  unfold processStep1 step1ErrOut
  split <;> try rfl
  split <;> try rfl
  split <;> try rfl
  dsimp only
  split <;> rfl

theorem pipelineDocuments_fileNames (env : PipelineEnv) (files : List FileInput) :
    (pipelineDocuments env files).map (·.fileName) = files.map (·.fileName) := by
  unfold pipelineDocuments pipelineStep0Results
  rw [List.map_map, List.map_map]
  exact List.map_congr_left (fun f _ => processDocumentStep0_fileName env.s0prompt f)

theorem pipelineUpdatedDocuments_fileNames (env : PipelineEnv) (files : List FileInput) :
    (pipelineUpdatedDocuments env files).map (·.fileName) = files.map (·.fileName) := by
  rw [← pipelineDocuments_fileNames env files]
  unfold pipelineUpdatedDocuments
  rw [List.map_map]
  refine List.map_congr_left (fun doc _ => ?_)
  simp only [Function.comp_apply]
  match hfind : (pipelineDocumentsWithCards env files).find?
      (fun d => d.fileName == doc.fileName) with
  | none => simp [hfind]
  | some d =>
    have := List.find?_some hfind
    simp at this
    simp [hfind, this]

/-- Sum of one numeric field over a list of stage entries. -/
def sumQ (f : StepCostStatistics → ℚ) (steps : List StepCostStatistics) : ℚ :=
  (steps.map f).sum

theorem foldl_addStepToTotal (steps : List StepCostStatistics) : ∀ t : CostTotals,
    steps.foldl addStepToTotal t =
      { tokens := { input := t.tokens.input + sumQ (fun s => s.tokens.input) steps
                    cachedInput := t.tokens.cachedInput + sumQ (fun s => s.tokens.cachedInput) steps
                    output := t.tokens.output + sumQ (fun s => s.tokens.output) steps
                    total := t.tokens.total + sumQ (fun s => s.tokens.total) steps }
        cost := { input := t.cost.input + sumQ (fun s => s.cost.input) steps
                  cachedInput := t.cost.cachedInput + sumQ (fun s => s.cost.cachedInput) steps
                  output := t.cost.output + sumQ (fun s => s.cost.output) steps
                  total := t.cost.total + sumQ (fun s => s.cost.total) steps } } := by
  induction steps with
  | nil => intro t; simp [sumQ]
  | cons s ss ih =>
    intro t
    simp only [List.foldl_cons]
    rw [ih]
    simp [addStepToTotal, sumQ, add_assoc]

theorem totalsOf_components (steps : List StepCostStatistics) :
    totalsOf steps =
      { tokens := { input := sumQ (fun s => s.tokens.input) steps
                    cachedInput := sumQ (fun s => s.tokens.cachedInput) steps
                    output := sumQ (fun s => s.tokens.output) steps
                    total := sumQ (fun s => s.tokens.total) steps }
        cost := { input := sumQ (fun s => s.cost.input) steps
                  cachedInput := sumQ (fun s => s.cost.cachedInput) steps
                  output := sumQ (fun s => s.cost.output) steps
                  total := sumQ (fun s => s.cost.total) steps } } := by
  unfold totalsOf
  rw [foldl_addStepToTotal]
  simp [zeroBlock]

/-! ## Concrete run fixtures -/

/-- A prompt pair that loads successfully. -/
def wPrompt : Except String PromptParts := .ok ⟨"sys", "usr"⟩

/-- A concrete token-usage block. -/
def wUsage : TokenUsage :=
  { promptTokens := 10
    completionTokens := 5
    cachedTokens := some 2
    totalTokens := 15 }

/-- A concrete cost block. -/
def wCost : CostBreakdown := ⟨1, 2, 3, 6⟩

/-- A concrete raw provider usage block. -/
def wRawUsage : RawUsage :=
  { prompt_tokens := some 10
    completion_tokens := some 5
    cached_tokens := some 2
    total_tokens := some 15 }

/-- A legal position whose `level1` carries case number `A-1`. -/
def lpJson : Json := .obj [("level1", .obj [("case_number", .str "A-1")])]

/-- A legal position whose `level1` carries case number `B-2`. -/
def lpJsonB : Json := .obj [("level1", .obj [("case_number", .str "B-2")])]

/-- A case card that carries its own case number. -/
def cardJson : Json := .obj [("caseNumber", .str "A-1"), ("summary", .str "s")]

/-- A stage response whose content is the serialization of `j`. -/
def okResp (j : Json) : StageAPIResponse :=
  { content := String.mk (Json.serialize j)
    usage := wUsage
    cost := wCost }

/-- Environment of a fully successful run. -/
def envOK : PipelineEnv :=
  { s0prompt := wPrompt
    s1prompt := wPrompt
    s3prompt := wPrompt
    s4prompt := wPrompt
    s1response := fun _ => .ok (okResp cardJson)
    s3response := fun _ => .ok (okResp (.obj [("skeleton", .str "ok")]))
    s4response := fun _ _ => .ok { content := "REVIEW", usage := wUsage, cost := wCost }
    save := fun _ _ _ => .ok () }

/-- Environment whose stage-3 call fails. -/
def envS3Fail : PipelineEnv := { envOK with s3response := fun _ => .error "boom" }

/-- Environment whose stage-4 call fails. -/
def envS4Fail : PipelineEnv := { envOK with s4response := fun _ _ => .error "s4 boom" }

/-- An input file that stage 0 processes successfully. -/
def fileOK : FileInput :=
  { fileName := "a.docx"
    conversion := .ok "md"
    s0response := .ok (okResp lpJson) }

/-- A second file with the same name but different contents and position. -/
def fileOK2 : FileInput :=
  { fileName := "a.docx"
    conversion := .ok "md2"
    s0response := .ok (okResp lpJsonB) }

/-- A successful file named `b.docx`. -/
def fileB : FileInput :=
  { fileName := "b.docx"
    conversion := .ok "md"
    s0response := .ok (okResp lpJson) }

/-- A file whose conversion fails. -/
def fileErrA : FileInput :=
  { fileName := "a.docx"
    conversion := .error "conv"
    s0response := .ok (okResp lpJson) }

/-- Three-document batch in which only document 2's conversion fails. -/
def filesScenario : List FileInput :=
  [ { fileName := "d1.docx", conversion := .ok "m1", s0response := .ok (okResp lpJson) },
    { fileName := "d2.docx", conversion := .error "conv2", s0response := .ok (okResp lpJson) },
    { fileName := "d3.docx", conversion := .ok "m3", s0response := .ok (okResp lpJsonB) } ]

/-- The field-by-field sum of a list of stage entries, as the spec's cost
idempotence property describes the run total. -/
def sumOfSteps (steps : List StepCostStatistics) : CostTotals :=
  { tokens := { input := sumQ (fun s => s.tokens.input) steps
                cachedInput := sumQ (fun s => s.tokens.cachedInput) steps
                output := sumQ (fun s => s.tokens.output) steps
                total := sumQ (fun s => s.tokens.total) steps }
    cost := { input := sumQ (fun s => s.cost.input) steps
              cachedInput := sumQ (fun s => s.cost.cachedInput) steps
              output := sumQ (fun s => s.cost.output) steps
              total := sumQ (fun s => s.cost.total) steps } }

/-! ## The claims -/

/-- Claim C1 (amended): when stage S3 or stage S4 fails, the run-level
error does carry the stage failure, but the outer catch DISCARDS the
accumulated cost statistics and the per-document status list: the result
has empty `documents` and an empty `steps` list, not the statistics
accumulated up to the failure. -/
theorem claim_C1 (env : PipelineEnv) (files : List FileInput) (e : String)
    (h1 : pipelineHasValid env files = true)
    (h2 : (pipelineCaseCards env files).length ≠ 0)
    (h3 : pipelineStep3 env files = .error e ∨
      ∃ sk c3 u3, pipelineStep3 env files = .ok (sk, c3, u3) ∧
        pipelineStep4 env files sk = .error e) :
    (processDocumentsPipeline env files).error = some e ∧
    (processDocumentsPipeline env files).documents = [] ∧
    (processDocumentsPipeline env files).costStatistics.steps = [] := by
  rcases h3 with h3 | ⟨sk, c3, u3, h3, h4⟩
  · rw [pipeline_path3_err env files e h1 h2 h3]
    exact ⟨rfl, rfl, rfl⟩
  · rw [pipeline_path4_err env files e sk c3 u3 h1 h2 h3 h4]
    exact ⟨rfl, rfl, rfl⟩

/-- Witness for claim C1: a one-document run whose stage-3 call fails
ends with the wrapped stage error, no documents and no stage entries. -/
theorem claim_C1_witness :
    (processDocumentsPipeline envS3Fail [fileOK]).error =
      some "Ошибка при создании скелета обзора: boom" ∧
    (processDocumentsPipeline envS3Fail [fileOK]).documents = [] ∧
    (processDocumentsPipeline envS3Fail [fileOK]).costStatistics.steps = [] :=
  claim_C1 envS3Fail [fileOK] "Ошибка при создании скелета обзора: boom"
    (by decide) (by decide) (Or.inl (by decide))

/-- Counterexample to claim C1 as stated: a one-document run whose
stage-4 call fails returns the run-level error, but its `documents`
array is empty (the input had one document) and its cost statistics
carry no stage entries at all, not even the S0 and S1 entries. -/
theorem claim_C1_cx :
    (processDocumentsPipeline envS4Fail [fileOK]).error =
      some "Ошибка при создании финального обзора: s4 boom" ∧
    (processDocumentsPipeline envS4Fail [fileOK]).documents.length = 0 ∧
    (processDocumentsPipeline envS4Fail [fileOK]).costStatistics.steps = [] ∧
    ([fileOK] : List FileInput).length = 1 := by decide

/-- Claim C2: refuted by the code.  In a two-document batch whose first
document errored in stage 0, the only CaseCard — produced by the second
document, `b.docx` — is paired with index 0 of the FULL document list,
so the entry serialized for stage 3 carries the first document's file
name `a.docx`, not that of the document that produced the card. -/
theorem claim_C2 :
    step3CardsData (pipelineCaseCards envOK [fileErrA, fileB])
        (pipelineUpdatedDocuments envOK [fileErrA, fileB]) =
      [{ index := 1, fileName := "a.docx", caseNumber := "A-1", card := cardJson }] ∧
    ((pipelineUpdatedDocuments envOK [fileErrA, fileB])[1]?).bind (·.caseCard) =
      some cardJson ∧
    ((pipelineUpdatedDocuments envOK [fileErrA, fileB])[0]?).bind (·.caseCard) = none ∧
    ((pipelineUpdatedDocuments envOK [fileErrA, fileB])[1]?).map (·.fileName) =
      some "b.docx" := by decide

/-- Claim C3: when no document yields a usable legal position in stage
S0, the run stops after S0 with an empty review, no case cards, the
aggregate error, and cost statistics consisting of the single S0 entry
whose fields equal the run total. -/
theorem claim_C3 (env : PipelineEnv) (files : List FileInput)
    (h : ∀ d ∈ pipelineDocuments env files, docUsable d = false) :
    (processDocumentsPipeline env files).review = "" ∧
    (processDocumentsPipeline env files).caseCards = [] ∧
    (processDocumentsPipeline env files).error =
      some "Все документы обработаны с ошибками" ∧
    (processDocumentsPipeline env files).costStatistics.steps =
      [pipelineStep0Stats env files] ∧
    (processDocumentsPipeline env files).costStatistics.total =
      { tokens := (pipelineStep0Stats env files).tokens
        cost := (pipelineStep0Stats env files).cost } := by
  have h1 : pipelineHasValid env files = false := by
    unfold pipelineHasValid
    rw [List.any_eq_false]
    intro d hd
    simp [h d hd]
  rw [pipeline_path1 env files h1]
  exact ⟨rfl, rfl, rfl, rfl, rfl⟩

/-- Witness for claim C3: a batch whose single document fails conversion
stops after S0 with the aggregate error. -/
theorem claim_C3_witness :
    (processDocumentsPipeline envOK [fileErrA]).review = "" ∧
    (processDocumentsPipeline envOK [fileErrA]).caseCards = [] ∧
    (processDocumentsPipeline envOK [fileErrA]).error =
      some "Все документы обработаны с ошибками" ∧
    (processDocumentsPipeline envOK [fileErrA]).costStatistics.steps =
      [pipelineStep0Stats envOK [fileErrA]] ∧
    (processDocumentsPipeline envOK [fileErrA]).costStatistics.total =
      { tokens := (pipelineStep0Stats envOK [fileErrA]).tokens
        cost := (pipelineStep0Stats envOK [fileErrA]).cost } :=
  claim_C3 envOK [fileErrA] (by decide)

/-- Claim C4: with the flex tier requested, capacity exhaustion on all 3
attempts leads to exactly one additional standard-tier request marked as
a fallback; capacity exhaustion twice followed by success returns a flex
result (no downgrade) after the 2s and 4s backoff delays; and a
non-capacity error during a flex attempt causes an immediate downgrade
to the standard tier rather than a hard failure. -/
theorem claim_C4 (m : String) {s : String} {e1 e2 e3 eo : ApiError}
    {r : RawResponse} {u : RawUsage}
    (h1 : isResourceUnavailable e1 = true) (h2 : isResourceUnavailable e2 = true)
    (h3 : isResourceUnavailable e3 = true) (ho : isResourceUnavailable eo = false)
    (hc : r.content = some s) (hs : s ≠ "") (hu : r.usage = some u) :
    ((callOpenAI (providerOfList [.err e1, .err e2, .err e3, .ok r]) m true).result =
        .ok { content := s, usage := mkTokenUsage u,
              cost := computeCost (pricingFor false m) (mkTokenUsage u),
              usedFlex := false, fallbackToStandard := true } ∧
      (callOpenAI (providerOfList [.err e1, .err e2, .err e3, .ok r]) m true).requests =
        [{ model := m, serviceTierFlex := true }, { model := m, serviceTierFlex := true },
          { model := m, serviceTierFlex := true }, { model := m, serviceTierFlex := false }]) ∧
    ((callOpenAI (providerOfList [.err e1, .err e2, .ok r]) m true).result =
        .ok { content := s, usage := mkTokenUsage u,
              cost := computeCost (pricingFor true m) (mkTokenUsage u),
              usedFlex := true, fallbackToStandard := false } ∧
      (callOpenAI (providerOfList [.err e1, .err e2, .ok r]) m true).delays =
        [2000, 4000]) ∧
    ((callOpenAI (providerOfList [.err eo, .ok r]) m true).result =
        .ok { content := s, usage := mkTokenUsage u,
              cost := computeCost (pricingFor false m) (mkTokenUsage u),
              usedFlex := false, fallbackToStandard := true } ∧
      (callOpenAI (providerOfList [.err eo, .ok r]) m true).requests =
        [{ model := m, serviceTierFlex := true },
          { model := m, serviceTierFlex := false }]) :=
  ⟨callOpenAI_flex_allCapacity m h1 h2 h3 hc hs hu,
    callOpenAI_flex_capacityTwiceThenOk m h1 h2 hc hs hu,
    callOpenAI_flex_otherError m ho hc hs hu⟩

/-- A capacity-exhaustion error as the provider raises it. -/
def capErr : ApiError := { status := some 429, message := "Resource Unavailable", code := none }

/-- A non-capacity provider error. -/
def othErr : ApiError := { status := some 500, message := "kaboom", code := none }

/-- A provider response that passes validation. -/
def goodR : RawResponse := { content := some "hello", usage := some wRawUsage }

/-- Witness for claim C4 at a concrete provider script. -/
theorem claim_C4_witness :
    ((callOpenAI (providerOfList [.err capErr, .err capErr, .err capErr, .ok goodR])
          "gpt-5" true).result =
        .ok { content := "hello", usage := mkTokenUsage wRawUsage,
              cost := computeCost (pricingFor false "gpt-5") (mkTokenUsage wRawUsage),
              usedFlex := false, fallbackToStandard := true } ∧
      (callOpenAI (providerOfList [.err capErr, .err capErr, .err capErr, .ok goodR])
          "gpt-5" true).requests =
        [{ model := "gpt-5", serviceTierFlex := true },
          { model := "gpt-5", serviceTierFlex := true },
          { model := "gpt-5", serviceTierFlex := true },
          { model := "gpt-5", serviceTierFlex := false }]) ∧
    ((callOpenAI (providerOfList [.err capErr, .err capErr, .ok goodR]) "gpt-5" true).result =
        .ok { content := "hello", usage := mkTokenUsage wRawUsage,
              cost := computeCost (pricingFor true "gpt-5") (mkTokenUsage wRawUsage),
              usedFlex := true, fallbackToStandard := false } ∧
      (callOpenAI (providerOfList [.err capErr, .err capErr, .ok goodR]) "gpt-5" true).delays =
        [2000, 4000]) ∧
    ((callOpenAI (providerOfList [.err othErr, .ok goodR]) "gpt-5" true).result =
        .ok { content := "hello", usage := mkTokenUsage wRawUsage,
              cost := computeCost (pricingFor false "gpt-5") (mkTokenUsage wRawUsage),
              usedFlex := false, fallbackToStandard := true } ∧
      (callOpenAI (providerOfList [.err othErr, .ok goodR]) "gpt-5" true).requests =
        [{ model := "gpt-5", serviceTierFlex := true },
          { model := "gpt-5", serviceTierFlex := false }]) :=
  claim_C4 "gpt-5" (by decide) (by decide) (by decide) (by decide) rfl (by decide) rfl

/-- Claim C5 (amended): a run that completes without error carries
exactly the stage entries 0, 1, 3 and 4 — one entry per stage that made
API calls, none doubled — and stage S2, although scheduled, NEVER
appears as an entry (the code records no zero-call entry for it). -/
theorem claim_C5 (env : PipelineEnv) (files : List FileInput)
    (h : (processDocumentsPipeline env files).error = none) :
    (processDocumentsPipeline env files).costStatistics.steps.map (·.step) =
      [0, 1, 3, 4] ∧
    ((processDocumentsPipeline env files).costStatistics.steps.map (·.step)).Nodup ∧
    2 ∉ (processDocumentsPipeline env files).costStatistics.steps.map (·.step) := by
  cases h1 : pipelineHasValid env files with
  | false =>
    rw [pipeline_path1 env files h1] at h
    simp at h
  | true =>
    by_cases h2 : (pipelineCaseCards env files).length = 0
    · rw [pipeline_path2 env files h1 h2] at h
      simp at h
    · cases h3 : pipelineStep3 env files with
      | error e =>
        rw [pipeline_path3_err env files e h1 h2 h3] at h
        simp [catchResult] at h
      | ok v =>
        obtain ⟨sk, c3, u3⟩ := v
        cases h4 : pipelineStep4 env files sk with
        | error e =>
          rw [pipeline_path4_err env files e sk c3 u3 h1 h2 h3 h4] at h
          simp [catchResult] at h
        | ok w =>
          obtain ⟨rv, c4, u4⟩ := w
          cases h5 : env.save (pipelineUpdatedDocuments env files) sk rv with
          | error e =>
            rw [pipeline_path_save_err env files e sk c3 u3 rv c4 u4 h1 h2 h3 h4 h5] at h
            simp [catchResult] at h
          | ok uu =>
            cases uu
            rw [pipeline_success env files sk c3 u3 rv c4 u4 h1 h2 h3 h4 h5]
            refine ⟨rfl, ?_, ?_⟩
            · show ([(0 : Nat), 1, 3, 4]).Nodup
              decide
            · show (2 : Nat) ∉ ([0, 1, 3, 4] : List Nat)
              decide

/-- Witness for claim C5: the one-document success run. -/
theorem claim_C5_witness :
    (processDocumentsPipeline envOK [fileOK]).costStatistics.steps.map (·.step) =
      [0, 1, 3, 4] ∧
    ((processDocumentsPipeline envOK [fileOK]).costStatistics.steps.map (·.step)).Nodup ∧
    2 ∉ (processDocumentsPipeline envOK [fileOK]).costStatistics.steps.map (·.step) :=
  claim_C5 envOK [fileOK] (by decide)

/-- Counterexample to claim C5 as stated: a run that reaches stage S2
and completes has NO entry for stage 2 in its cost statistics — the
scheduled stage with zero API calls does not appear with zeroed fields. -/
theorem claim_C5_cx :
    (processDocumentsPipeline envOK [fileOK]).error = none ∧
    2 ∉ (processDocumentsPipeline envOK [fileOK]).costStatistics.steps.map (·.step) ∧
    (processDocumentsPipeline envOK [fileOK]).costStatistics.steps.length = 4 := by decide

/-- Claim C6: on every return path of the pipeline, summing each token
field and each cost field over the returned stage entries yields exactly
the corresponding field of the run-level total. -/
theorem claim_C6 (env : PipelineEnv) (files : List FileInput) :
    (processDocumentsPipeline env files).costStatistics.total =
      sumOfSteps (processDocumentsPipeline env files).costStatistics.steps := by
  cases h1 : pipelineHasValid env files with
  | false =>
    rw [pipeline_path1 env files h1]
    simp [sumOfSteps, sumQ]
  | true =>
    by_cases h2 : (pipelineCaseCards env files).length = 0
    · rw [pipeline_path2 env files h1 h2]
      simp [sumOfSteps, sumQ]
    · cases h3 : pipelineStep3 env files with
      | error e =>
        rw [pipeline_path3_err env files e h1 h2 h3]
        rfl
      | ok v =>
        obtain ⟨sk, c3, u3⟩ := v
        cases h4 : pipelineStep4 env files sk with
        | error e =>
          rw [pipeline_path4_err env files e sk c3 u3 h1 h2 h3 h4]
          rfl
        | ok w =>
          obtain ⟨rv, c4, u4⟩ := w
          cases h5 : env.save (pipelineUpdatedDocuments env files) sk rv with
          | error e =>
            rw [pipeline_path_save_err env files e sk c3 u3 rv c4 u4 h1 h2 h3 h4 h5]
            rfl
          | ok uu =>
            cases uu
            rw [pipeline_success env files sk c3 u3 rv c4 u4 h1 h2 h3 h4 h5]
            show totalsOf [pipelineStep0Stats env files, pipelineStep1Stats env files,
                singleCallStats 3 "Создание скелета обзора" "deepseek/deepseek-v3.2" c3 u3,
                singleCallStats 4 "Генерация финального обзора"
                  "google/gemini-2.5-flash-preview-09-2025" c4 u4] =
              sumOfSteps [pipelineStep0Stats env files, pipelineStep1Stats env files,
                singleCallStats 3 "Создание скелета обзора" "deepseek/deepseek-v3.2" c3 u3,
                singleCallStats 4 "Генерация финального обзора"
                  "google/gemini-2.5-flash-preview-09-2025" c4 u4]
            rw [totalsOf_components]
            rfl

/-- Witness for claim C6 at the one-document success run. -/
theorem claim_C6_witness :
    (processDocumentsPipeline envOK [fileOK]).costStatistics.total =
      sumOfSteps (processDocumentsPipeline envOK [fileOK]).costStatistics.steps :=
  claim_C6 envOK [fileOK]

/-- Claim C7 (amended): the JSON-extraction round-trip holds for an
object rendered in a ` ```json ` fenced block embedded in surrounding
prose, PROVIDED the object's serialization and the prose before the
block contain no backtick; an object whose serialization contains a
backtick can defeat the extractor. -/
theorem claim_C7 (kvs : List (String × Json)) (p1 p2 : List Char)
    (hser : ∀ c ∈ Json.serialize (Json.obj kvs), c ≠ '`')
    (hp1 : ∀ c ∈ p1, c ≠ '`') :
    extractJson (p1 ++ (fenceJson ++ ('\n' :: (Json.serialize (Json.obj kvs) ++
        ('\n' :: (fenceMark ++ p2)))))) = some (Json.obj kvs) := by
  unfold extractJson
  rw [extractJsonCandidate_fenced kvs p1 p2 hser hp1, Json.parseChars_serialize]

/-- Witness for claim C7: a concrete object fenced inside prose is
extracted intact. -/
theorem claim_C7_witness :
    extractJson (("Intro text ").data ++ (fenceJson ++ ('\n' ::
        (Json.serialize (Json.obj [("k", Json.str "v")]) ++
          ('\n' :: (fenceMark ++ (" outro").data)))))) =
      some (Json.obj [("k", Json.str "v")]) :=
  claim_C7 [("k", Json.str "v")] ("Intro text ").data (" outro").data
    (by decide) (by decide)

/-- Counterexample to claim C7 as stated: for the object whose sole
string value is three backticks, the fenced rendering is NOT recovered —
extraction fails although the serialization alone parses back exactly. -/
theorem claim_C7_cx :
    extractJson (fenceJson ++ '\n' ::
        (Json.serialize (Json.obj [("a", Json.str "```")]) ++ '\n' :: fenceMark)) = none ∧
    Json.parseChars (Json.serialize (Json.obj [("a", Json.str "```")])) =
      some (Json.obj [("a", Json.str "```")]) := by decide

/-- Claim C8: a standard-tier model-not-found failure is retried exactly
once with the fallback model `gpt-4o` and priced with the fallback
model's pricing on success; any other provider error, an empty
completion, or missing usage metadata surfaces as a wrapped invocation
error after the single request, with no further retry. -/
theorem claim_C8 (m : String) {s : String} {e eo : ApiError}
    {r rEmpty rNoUsage : RawResponse} {u : RawUsage}
    (he : isModelNotFound e = true)
    (hc : r.content = some s) (hs : s ≠ "") (hu : r.usage = some u)
    (ho : isModelNotFound eo = false)
    (hec : rEmpty.content = some "" ∨ rEmpty.content = none)
    (hnc : rNoUsage.content = some s) (hnu : rNoUsage.usage = none) :
    ((callOpenAI (providerOfList [.err e, .ok r]) m false).result =
        .ok { content := s, usage := mkTokenUsage u,
              cost := computeCost (pricingFor false "gpt-4o") (mkTokenUsage u),
              usedFlex := false, fallbackToStandard := false } ∧
      (callOpenAI (providerOfList [.err e, .ok r]) m false).requests =
        [{ model := m, serviceTierFlex := false },
          { model := "gpt-4o", serviceTierFlex := false }]) ∧
    ((callOpenAI (providerOfList [.err eo]) m false).result =
        .error ("Ошибка при вызове OpenAI API: " ++ eo.message) ∧
      (callOpenAI (providerOfList [.err eo]) m false).requests =
        [{ model := m, serviceTierFlex := false }]) ∧
    ((callOpenAI (providerOfList [.ok rEmpty]) m false).result =
        .error ("Ошибка при вызове OpenAI API: " ++ "Пустой ответ от OpenAI API") ∧
      (callOpenAI (providerOfList [.ok rEmpty]) m false).requests.length = 1) ∧
    ((callOpenAI (providerOfList [.ok rNoUsage]) m false).result =
        .error ("Ошибка при вызове OpenAI API: " ++
          "Не получена статистика использования токенов") ∧
      (callOpenAI (providerOfList [.ok rNoUsage]) m false).requests.length = 1) :=
  ⟨callOpenAI_std_modelNotFound m he hc hs hu,
    callOpenAI_std_otherError m ho,
    callOpenAI_std_emptyContent m hec,
    callOpenAI_std_missingUsage m hnc hs hnu⟩

/-- A model-not-found provider error (404). -/
def notFoundErr : ApiError := { status := some 404, message := "", code := none }

/-- A network-style provider error that is not model-not-found. -/
def netErr : ApiError := { status := some 500, message := "network down", code := none }

/-- A response with no content. -/
def emptyR : RawResponse := { content := none, usage := none }

/-- A response with content but no usage metadata. -/
def noUsageR : RawResponse := { content := some "hello", usage := none }

/-- Witness for claim C8 at concrete provider scripts. -/
theorem claim_C8_witness :
    ((callOpenAI (providerOfList [.err notFoundErr, .ok goodR]) "gpt-5" false).result =
        .ok { content := "hello", usage := mkTokenUsage wRawUsage,
              cost := computeCost (pricingFor false "gpt-4o") (mkTokenUsage wRawUsage),
              usedFlex := false, fallbackToStandard := false } ∧
      (callOpenAI (providerOfList [.err notFoundErr, .ok goodR]) "gpt-5" false).requests =
        [{ model := "gpt-5", serviceTierFlex := false },
          { model := "gpt-4o", serviceTierFlex := false }]) ∧
    ((callOpenAI (providerOfList [.err netErr]) "gpt-5" false).result =
        .error ("Ошибка при вызове OpenAI API: " ++ netErr.message) ∧
      (callOpenAI (providerOfList [.err netErr]) "gpt-5" false).requests =
        [{ model := "gpt-5", serviceTierFlex := false }]) ∧
    ((callOpenAI (providerOfList [.ok emptyR]) "gpt-5" false).result =
        .error ("Ошибка при вызове OpenAI API: " ++ "Пустой ответ от OpenAI API") ∧
      (callOpenAI (providerOfList [.ok emptyR]) "gpt-5" false).requests.length = 1) ∧
    ((callOpenAI (providerOfList [.ok noUsageR]) "gpt-5" false).result =
        .error ("Ошибка при вызове OpenAI API: " ++
          "Не получена статистика использования токенов") ∧
      (callOpenAI (providerOfList [.ok noUsageR]) "gpt-5" false).requests.length = 1) :=
  claim_C8 "gpt-5" (by decide) rfl (by decide) rfl (by decide)
    (Or.inr rfl) rfl rfl

/-- Claim C9 (amended): outside the catch paths the output `documents`
array mirrors the input batch name-for-name in order (and the catch
paths return an empty array instead); a document with an attached error
is excluded from the stage-1 calls; and in the 3-document scenario where
only document 2's conversion fails, the output has the three documents
in input order, document 2 carries the conversion-error message,
documents 1 and 3 carry complete CaseCards, later stages see only
documents 1 and 3, and the run completes without error. -/
theorem claim_C9 (env : PipelineEnv) (files : List FileInput) :
    ((processDocumentsPipeline env files).documents.map (·.fileName) =
        files.map (·.fileName) ∨
      (processDocumentsPipeline env files).documents = []) ∧
    (∀ d ∈ pipelineDocuments env files, jsTruthyStr d.error = true →
      d ∉ pipelineSurvivors env files) ∧
    (processDocumentsPipeline envOK filesScenario).documents.map (·.fileName) =
      ["d1.docx", "d2.docx", "d3.docx"] ∧
    (processDocumentsPipeline envOK filesScenario).documents.map (·.error) =
      [none, some "conv2", none] ∧
    (processDocumentsPipeline envOK filesScenario).documents.map
        (fun d => d.caseCard.isSome) = [true, false, true] ∧
    (pipelineSurvivors envOK filesScenario).map (·.fileName) = ["d1.docx", "d3.docx"] ∧
    (processDocumentsPipeline envOK filesScenario).error = none := by
  refine ⟨?_, ?_, by decide, by decide, by decide, by decide, by decide⟩
  · cases h1 : pipelineHasValid env files with
    | false =>
      left
      rw [pipeline_path1 env files h1]
      exact pipelineDocuments_fileNames env files
    | true =>
      by_cases h2 : (pipelineCaseCards env files).length = 0
      · left
        rw [pipeline_path2 env files h1 h2]
        exact pipelineUpdatedDocuments_fileNames env files
      · cases h3 : pipelineStep3 env files with
        | error e =>
          right
          rw [pipeline_path3_err env files e h1 h2 h3]
          rfl
        | ok v =>
          obtain ⟨sk, c3, u3⟩ := v
          cases h4 : pipelineStep4 env files sk with
          | error e =>
            right
            rw [pipeline_path4_err env files e sk c3 u3 h1 h2 h3 h4]
            rfl
          | ok w =>
            obtain ⟨rv, c4, u4⟩ := w
            cases h5 : env.save (pipelineUpdatedDocuments env files) sk rv with
            | error e =>
              right
              rw [pipeline_path_save_err env files e sk c3 u3 rv c4 u4 h1 h2 h3 h4 h5]
              rfl
            | ok uu =>
              cases uu
              left
              rw [pipeline_success env files sk c3 u3 rv c4 u4 h1 h2 h3 h4 h5]
              exact pipelineUpdatedDocuments_fileNames env files
  · intro d hd herr hmem
    unfold pipelineSurvivors at hmem
    have hud := (List.mem_filter.mp hmem).2
    simp [docUsable, herr] at hud

/-- Witness for claim C9 at the one-document success run. -/
theorem claim_C9_witness :
    ((processDocumentsPipeline envOK [fileOK]).documents.map (·.fileName) =
        [fileOK].map (·.fileName) ∨
      (processDocumentsPipeline envOK [fileOK]).documents = []) ∧
    (∀ d ∈ pipelineDocuments envOK [fileOK], jsTruthyStr d.error = true →
      d ∉ pipelineSurvivors envOK [fileOK]) ∧
    (processDocumentsPipeline envOK filesScenario).documents.map (·.fileName) =
      ["d1.docx", "d2.docx", "d3.docx"] ∧
    (processDocumentsPipeline envOK filesScenario).documents.map (·.error) =
      [none, some "conv2", none] ∧
    (processDocumentsPipeline envOK filesScenario).documents.map
        (fun d => d.caseCard.isSome) = [true, false, true] ∧
    (pipelineSurvivors envOK filesScenario).map (·.fileName) = ["d1.docx", "d3.docx"] ∧
    (processDocumentsPipeline envOK filesScenario).error = none :=
  claim_C9 envOK [fileOK]

/-- Counterexample to claim C9 as stated: a run whose stage-4 call fails
returns an EMPTY documents array for a one-document input, so the output
does not always have the input's length. -/
theorem claim_C9_cx :
    (processDocumentsPipeline envS4Fail [fileOK]).documents.length = 0 ∧
    ([fileOK] : List FileInput).length = 1 := by decide

/-- Claim C10: with two same-named documents that both survive stage 0,
the merge after stage 1 looks results up by file name alone, so both
output positions receive the FIRST document's stage-1 result, and the
second document's own result appears in the output only if it happens to
equal the first's. -/
theorem claim_C10 (env : PipelineEnv) (f1 f2 : FileInput)
    (hname : f1.fileName = f2.fileName)
    (hu1 : docUsable (processDocumentStep0 env.s0prompt f1).result = true)
    (hu2 : docUsable (processDocumentStep0 env.s0prompt f2).result = true) :
    pipelineUpdatedDocuments env [f1, f2] =
      [(processStep1 env.s1prompt env.s1response
          (processDocumentStep0 env.s0prompt f1).result).result,
        (processStep1 env.s1prompt env.s1response
          (processDocumentStep0 env.s0prompt f1).result).result] ∧
    ((processStep1 env.s1prompt env.s1response
          (processDocumentStep0 env.s0prompt f2).result).result ∈
        pipelineUpdatedDocuments env [f1, f2] →
      (processStep1 env.s1prompt env.s1response
          (processDocumentStep0 env.s0prompt f2).result).result =
        (processStep1 env.s1prompt env.s1response
          (processDocumentStep0 env.s0prompt f1).result).result) := by
  have hd1n : (processDocumentStep0 env.s0prompt f1).result.fileName = f1.fileName :=
    processDocumentStep0_fileName _ _
  have hd2n : (processDocumentStep0 env.s0prompt f2).result.fileName = f2.fileName :=
    processDocumentStep0_fileName _ _
  have hr1n : (processStep1 env.s1prompt env.s1response
      (processDocumentStep0 env.s0prompt f1).result).result.fileName = f1.fileName := by
    rw [processStep1_fileName, hd1n]
  have hmain : pipelineUpdatedDocuments env [f1, f2] =
      [(processStep1 env.s1prompt env.s1response
          (processDocumentStep0 env.s0prompt f1).result).result,
        (processStep1 env.s1prompt env.s1response
          (processDocumentStep0 env.s0prompt f1).result).result] := by
    unfold pipelineUpdatedDocuments pipelineDocumentsWithCards pipelineStep1Results
      pipelineSurvivors pipelineDocuments pipelineStep0Results
    simp only [List.map_cons, List.map_nil]
    rw [List.filter_cons_of_pos hu1, List.filter_cons_of_pos hu2, List.filter_nil]
    simp only [List.map_cons, List.map_nil]
    have hb1 : ((processStep1 env.s1prompt env.s1response
        (processDocumentStep0 env.s0prompt f1).result).result.fileName ==
          (processDocumentStep0 env.s0prompt f1).result.fileName) = true := by
      rw [hr1n, hd1n]
      exact beq_self_eq_true _
    have hb2 : ((processStep1 env.s1prompt env.s1response
        (processDocumentStep0 env.s0prompt f1).result).result.fileName ==
          (processDocumentStep0 env.s0prompt f2).result.fileName) = true := by
      rw [hr1n, hd2n, hname]
      exact beq_self_eq_true _
    simp only [List.find?, hb1, hb2, Option.getD_some]
  refine ⟨hmain, ?_⟩
  intro hmem
  rw [hmain] at hmem
  simp only [List.mem_cons, List.not_mem_nil, or_false, or_self] at hmem
  exact hmem

/-- Witness for claim C10: two same-named input files; the second file's
own stage-1 record is absent from the merged output (both positions hold
the first file's record). -/
theorem claim_C10_witness :
    pipelineUpdatedDocuments envOK [fileOK, fileOK2] =
      [(processStep1 envOK.s1prompt envOK.s1response
          (processDocumentStep0 envOK.s0prompt fileOK).result).result,
        (processStep1 envOK.s1prompt envOK.s1response
          (processDocumentStep0 envOK.s0prompt fileOK).result).result] ∧
    ((processStep1 envOK.s1prompt envOK.s1response
          (processDocumentStep0 envOK.s0prompt fileOK2).result).result ∈
        pipelineUpdatedDocuments envOK [fileOK, fileOK2] →
      (processStep1 envOK.s1prompt envOK.s1response
          (processDocumentStep0 envOK.s0prompt fileOK2).result).result =
        (processStep1 envOK.s1prompt envOK.s1response
          (processDocumentStep0 envOK.s0prompt fileOK).result).result) :=
  claim_C10 envOK fileOK fileOK2 rfl (by decide) (by decide)

end Review
